import Mathlib

/-!
Shallow embedding of the crowe-codex / claude-codex orchestration core
(result scoring, engine normalization, strategies, fitness evaluation,
router, serialization round-trips), translated from the Python sources,
together with theorems settling the specification claims C1-C10.

Python floats are modelled as exact rationals (ℚ) and Python ints as ℤ.
-/

/-- Python `int(q)` applied to a float/rational: truncation toward zero. -/
def pyTrunc (q : ℚ) : ℤ := if 0 ≤ q then ⌊q⌋ else ⌈q⌉

/-- Python `round(q)` (half-to-even, the float default). -/
def pyRoundHalfEven (q : ℚ) : ℤ :=
  if q - ⌊q⌋ < 1/2 then ⌊q⌋
  else if 1/2 < q - ⌊q⌋ then ⌊q⌋ + 1
  else if ⌊q⌋ % 2 = 0 then ⌊q⌋ else ⌊q⌋ + 1

/-- Python `round(q, 2)`: round to two decimal places, half to even. -/
def pyRound2 (q : ℚ) : ℚ := (pyRoundHalfEven (q * 100) : ℚ) / 100

/-! ## `claude_codex/core/result.py` -/

/-- `ConfidenceReport` (result.py lines 40-49): the seven stored fields.
`score` is a derived property, never stored. -/
structure ConfidenceReport where
  architecture_preserved : Bool
  tests_passing : Bool
  vulnerabilities_found : ℤ
  dependencies_verified : Bool
  owasp_clean : Bool
  models_consulted : ℤ
  cross_vendor_agreement : ℚ
deriving DecidableEq, Repr

/-- `ConfidenceReport.score` (result.py lines 51-67): sequential additions
into `s`, then `int(self.cross_vendor_agreement * 15)` and `min(s, 100)`. -/
def ConfidenceReport.score (r : ConfidenceReport) : ℤ :=
  let s : ℤ :=
    (if r.architecture_preserved then 20 else 0)
    + (if r.tests_passing then 20 else 0)
    + (if r.vulnerabilities_found = 0 then 15 else 0)
    + (if r.dependencies_verified then 15 else 0)
    + (if r.owasp_clean then 15 else 0)
    + pyTrunc (r.cross_vendor_agreement * 15)
  min s 100

/-- The score formula exactly as the specification words it (claim C1):
the five 15/20-point indicator terms plus `floor(15 * cross_vendor_agreement)`,
capped at 100.  Stated from the spec, to be compared with the code
function `ConfidenceReport.score`. -/
def specFloorScore (r : ConfidenceReport) : ℤ :=
  min ((if r.architecture_preserved then 20 else 0)
    + (if r.tests_passing then 20 else 0)
    + (if r.vulnerabilities_found = 0 then 15 else 0)
    + (if r.dependencies_verified then 15 else 0)
    + (if r.owasp_clean then 15 else 0)
    + ⌊(15 : ℚ) * r.cross_vendor_agreement⌋) 100

/-! ## `crowe_codex/fitness/runner.py` -/

/-- `FitnessScore` (runner.py lines 8-16): five float sub-scores, default 0. -/
structure FitnessScore where
  correctness : ℚ := 0
  performance : ℚ := 0
  readability : ℚ := 0
  robustness : ℚ := 0
  security : ℚ := 0
deriving DecidableEq, Repr

/-- The all-default `FitnessScore()`. -/
def FitnessScore.zero : FitnessScore := {}

/-- `FitnessScore.total` (runner.py lines 18-35): the weighted sum with
weights 0.35/0.15/0.15/0.20/0.15, passed through `round(raw, 2)`. -/
def FitnessScore.total (f : FitnessScore) : ℚ :=
  pyRound2 (f.correctness * (35/100) + f.performance * (15/100)
    + f.readability * (15/100) + f.robustness * (20/100) + f.security * (15/100))

/-! ## Rounding lemmas -/

theorem floor_le_pyRoundHalfEven (q : ℚ) : ⌊q⌋ ≤ pyRoundHalfEven q := by
  unfold pyRoundHalfEven
  split_ifs <;> omega

theorem pyRoundHalfEven_le_ceil (q : ℚ) : pyRoundHalfEven q ≤ ⌈q⌉ := by
  have hfc : ⌊q⌋ ≤ ⌈q⌉ := Int.floor_le_ceil q
  have hlt : (1:ℚ)/2 ≤ q - ⌊q⌋ → ⌊q⌋ + 1 ≤ ⌈q⌉ := by
    intro h
    have : (⌊q⌋ : ℚ) < q := by linarith
    exact Int.add_one_le_iff.mpr (Int.lt_ceil.mpr this)
  unfold pyRoundHalfEven
  split_ifs with h1 h2 h3
  · exact hfc
  · exact hlt (by linarith)
  · exact hfc
  · exact hlt (by linarith)

theorem pyRound2_nonneg {q : ℚ} (h : 0 ≤ q) : 0 ≤ pyRound2 q := by
  unfold pyRound2
  have h0 : (0 : ℤ) ≤ ⌊q * 100⌋ := Int.floor_nonneg.mpr (by positivity)
  have hf : (0 : ℤ) ≤ pyRoundHalfEven (q * 100) :=
    le_trans h0 (floor_le_pyRoundHalfEven (q * 100))
  positivity

theorem pyRound2_le_hundred {q : ℚ} (h : q ≤ 100) : pyRound2 q ≤ 100 := by
  unfold pyRound2
  have hc : pyRoundHalfEven (q * 100) ≤ (10000 : ℤ) :=
    le_trans (pyRoundHalfEven_le_ceil (q * 100))
      (Int.ceil_le.mpr (by push_cast; linarith))
  have : (pyRoundHalfEven (q * 100) : ℚ) ≤ 10000 := by exact_mod_cast hc
  linarith

/-! ## Claim C1: the ConfidenceReport score formula -/

/-- Concrete report with a negative `cross_vendor_agreement` (-0.9): here
the Python `int()` truncation (-13) differs from the claimed `floor` (-14),
and the computed score escapes the claimed [0,100] range. -/
def reportNegAgreement : ConfidenceReport :=
  { architecture_preserved := false, tests_passing := false, vulnerabilities_found := 1,
    dependencies_verified := false, owasp_clean := false, models_consulted := 0,
    cross_vendor_agreement := -9/10 }

/-- C1 counterexample: the claim quantifies over any real
`cross_vendor_agreement`; at -0.9 (all other contributions zero) the computed
score is -13 = `int(-13.5)`, while the claimed floor formula gives -14 and
the claimed range [0,100] excludes both, so the claim as stated is false. -/
theorem C1_counterexample :
    ¬ (reportNegAgreement.score = specFloorScore reportNegAgreement ∧
       0 ≤ reportNegAgreement.score ∧ reportNegAgreement.score ≤ 100) := by
  have hc : (⌈-((27:ℚ) / 2)⌉ : ℤ) = -13 := by rw [Int.ceil_eq_iff]; norm_num
  have hs : reportNegAgreement.score = -13 := by
    norm_num [ConfidenceReport.score, reportNegAgreement, pyTrunc, hc]
  have hf : specFloorScore reportNegAgreement = -14 := by
    norm_num [specFloorScore, reportNegAgreement]
  rw [hs, hf]
  norm_num

/-- C1 (amended: restricted to nonnegative `cross_vendor_agreement`, which the
counterexample at -0.9 forces): the derived score equals
20·[architecture_preserved] + 20·[tests_passing] + 15·[vulnerabilities_found=0]
+ 15·[dependencies_verified] + 15·[owasp_clean] + floor(15·cross_vendor_agreement)
capped at 100, and lies in [0,100].  The first conjunct equates the score with
`specFloorScore`, a function of the seven stored fields alone, which is the
claimed determinism. -/
theorem C1_score_formula (r : ConfidenceReport)
    (h : 0 ≤ r.cross_vendor_agreement) :
    r.score = specFloorScore r ∧ 0 ≤ r.score ∧ r.score ≤ 100 := by
  have h15 : (0:ℚ) ≤ r.cross_vendor_agreement * 15 := by positivity
  have ht : pyTrunc (r.cross_vendor_agreement * 15) = ⌊r.cross_vendor_agreement * 15⌋ :=
    if_pos h15
  have hfl0 : 0 ≤ ⌊r.cross_vendor_agreement * 15⌋ := Int.floor_nonneg.mpr h15
  have i1 : (0:ℤ) ≤ if r.architecture_preserved then 20 else 0 := by split <;> norm_num
  have i2 : (0:ℤ) ≤ if r.tests_passing then 20 else 0 := by split <;> norm_num
  have i3 : (0:ℤ) ≤ if r.vulnerabilities_found = 0 then 15 else 0 := by split <;> norm_num
  have i4 : (0:ℤ) ≤ if r.dependencies_verified then 15 else 0 := by split <;> norm_num
  have i5 : (0:ℤ) ≤ if r.owasp_clean then 15 else 0 := by split <;> norm_num
  refine ⟨?_, ?_, ?_⟩
  · unfold ConfidenceReport.score specFloorScore
    rw [ht, show r.cross_vendor_agreement * 15 = 15 * r.cross_vendor_agreement from
      mul_comm _ _]
  · unfold ConfidenceReport.score
    rw [ht]
    exact le_min (by omega) (by norm_num)
  · exact min_le_right _ _

/-- C1 witness: the amended theorem applied at a concrete report with
agreement 0.7 (the partial-credit constant of the engine). -/
theorem C1_witness :
    ConfidenceReport.score
        { architecture_preserved := true, tests_passing := true, vulnerabilities_found := 0,
          dependencies_verified := true, owasp_clean := true, models_consulted := 2,
          cross_vendor_agreement := 7/10 } =
      specFloorScore
        { architecture_preserved := true, tests_passing := true, vulnerabilities_found := 0,
          dependencies_verified := true, owasp_clean := true, models_consulted := 2,
          cross_vendor_agreement := 7/10 } ∧
    0 ≤ ConfidenceReport.score
        { architecture_preserved := true, tests_passing := true, vulnerabilities_found := 0,
          dependencies_verified := true, owasp_clean := true, models_consulted := 2,
          cross_vendor_agreement := 7/10 } ∧
    ConfidenceReport.score
        { architecture_preserved := true, tests_passing := true, vulnerabilities_found := 0,
          dependencies_verified := true, owasp_clean := true, models_consulted := 2,
          cross_vendor_agreement := 7/10 } ≤ 100 :=
  C1_score_formula _ (by norm_num)

/-! ## Claim C7: the FitnessScore weighted total -/

/-- C7: for every `FitnessScore` with all five fields in [0,100], the total
equals 0.35·correctness + 0.15·performance + 0.15·readability +
0.20·robustness + 0.15·security rounded to 2 decimals, and lies in [0,100];
in particular correctness=80, robustness=60, others 0 gives exactly 40.0. -/
theorem C7_total_formula :
    (∀ f : FitnessScore,
      0 ≤ f.correctness → f.correctness ≤ 100 →
      0 ≤ f.performance → f.performance ≤ 100 →
      0 ≤ f.readability → f.readability ≤ 100 →
      0 ≤ f.robustness → f.robustness ≤ 100 →
      0 ≤ f.security → f.security ≤ 100 →
      f.total = pyRound2 ((35/100) * f.correctness + (15/100) * f.performance
        + (15/100) * f.readability + (20/100) * f.robustness
        + (15/100) * f.security) ∧
      0 ≤ f.total ∧ f.total ≤ 100) ∧
    FitnessScore.total { correctness := 80, robustness := 60 } = 40 := by
  constructor
  · intro f hc0 hc1 hp0 hp1 hr0 hr1 hb0 hb1 hs0 hs1
    refine ⟨congrArg pyRound2 (by ring), ?_, ?_⟩
    · exact pyRound2_nonneg (by linarith)
    · exact pyRound2_le_hundred (by linarith)
  · norm_num [FitnessScore.total, pyRound2, pyRoundHalfEven]

/-- C7 witness: the universal part applied at the example given in the claim
(correctness 80, robustness 60, others 0). -/
theorem C7_witness :
    FitnessScore.total { correctness := 80, robustness := 60 } =
      pyRound2 ((35/100) * (80:ℚ) + (15/100) * 0 + (15/100) * 0
        + (20/100) * 60 + (15/100) * 0) ∧
    0 ≤ FitnessScore.total { correctness := 80, robustness := 60 } ∧
    FitnessScore.total { correctness := 80, robustness := 60 } ≤ 100 :=
  C7_total_formula.1 { correctness := 80, robustness := 60 }
    (by norm_num) (by norm_num) (by norm_num) (by norm_num) (by norm_num)
    (by norm_num) (by norm_num) (by norm_num) (by norm_num) (by norm_num)

/-! ## `crowe_codex/core/engine.py` : output normalization

The named-output mapping of a strategy is modelled as an insertion-ordered
association list (Python dicts preserve insertion order and the strategies
build them with distinct literal keys).  The mapping values the strategies
produce are strings, ints and lists of strings. -/

/-- `Stage` (result.py lines 10-17). -/
inductive Stage where
  | ARCHITECT | BUILDER | SPECIALIST | ACCELERATOR | DISPATCH
deriving DecidableEq, Repr

/-- A value in a strategy output mapping. -/
inductive PyObj where
  | str (s : String)
  | int (n : ℤ)
  | listStr (l : List String)
deriving DecidableEq, Repr

/-- Python truthiness of a mapping value (`""`, `0` and `[]` are falsy). -/
def PyObj.truthy : PyObj → Bool
  | .str s => !s.isEmpty
  | .int n => n != 0
  | .listStr l => !l.isEmpty

/-- The named-output mapping of a strategy. -/
abbrev StrategyOutput := List (String × PyObj)

/-- `result.get(key)`: `None` when the key is absent. -/
def StrategyOutput.get (m : StrategyOutput) (k : String) : Option PyObj :=
  (m.find? (fun p => p.1 = k)).map (·.2)

/-- `AgentOutput` (result.py lines 20-26). -/
structure AgentOutput where
  stage : Stage
  agent_name : String
  content : String
deriving DecidableEq, Repr

/-- `PipelineResult` (result.py lines 70-77); the security attestation is a
constant default and is omitted. -/
structure PipelineResult where
  code : String
  stage_outputs : List AgentOutput
  confidence : ConfidenceReport
  summary : String
deriving Repr

/-- `stage_map` (engine.py lines 63-68); lookup defaults to DISPATCH. -/
def stage_map : List (String × Stage) :=
  [("claude", .ARCHITECT), ("codex", .BUILDER), ("ollama", .SPECIALIST),
   ("build", .BUILDER), ("attack", .BUILDER), ("fuzz", .SPECIALIST),
   ("dispatch", .DISPATCH)]

/-- `stage_map.get(stage_name, Stage.DISPATCH)` (engine.py line 72). -/
def stageFor (name : String) : Stage :=
  match (stage_map.find? (fun p => p.1 = name)).map (·.2) with
  | some st => st
  | none => .DISPATCH

/-- Cross-vendor agreement (engine.py lines 77-79): starts at 1.0 and is
recomputed only when `result.get("claude_output")` and
`result.get("codex_output")` are both truthy (present and non-empty):
1.0 on exact equality, 0.7 otherwise. -/
def engineAgreement (result : StrategyOutput) : ℚ :=
  match result.get "claude_output", result.get "codex_output" with
  | some a, some b =>
    if a.truthy && b.truthy then (if a = b then 1 else 7/10) else 1
  | _, _ => 1

/-- `DualEngine.run` normalization (engine.py lines 53-97), as a pure
function of the registered agent names and the output mapping of the strategy.
Registered agent objects are always truthy, so `bool(self._agents.get("ollama"))`
reduces to presence of the key `"ollama"`. -/
def engineRun (agents : List String) (strategyName : String)
    (result : StrategyOutput) : PipelineResult :=
  let code :=
    match result.get "dispatch_output" with
    | some (.str s) => s
    | _ =>
      match result.get "build_output" with
      | some (.str s) => s
      | _ => ""
  let stage_outputs := result.filterMap (fun kv =>
    match kv.2 with
    | .str s =>
      if kv.1.endsWith "_output" then
        some { stage := stageFor (kv.1.replace "_output" ""),
               agent_name := kv.1.replace "_output" "", content := s }
      else none
    | _ => none)
  { code := code
    stage_outputs := stage_outputs
    confidence :=
      { architecture_preserved := true
        tests_passing := true
        vulnerabilities_found := 0
        dependencies_verified := agents.contains "ollama"
        owasp_clean := true
        models_consulted := (agents.length : ℤ)
        cross_vendor_agreement := engineAgreement result }
    summary := "Strategy: " ++ strategyName }

/-! ## `claude_codex/strategies/consensus.py`

An agent is modelled as a function from (per-agent call index, prompt) to
the returned text; the index models the accepted nondeterminism of repeated
calls, so quantifying over these functions covers every agent behavior. -/

abbrev AgentFun := Nat → String → String

/-- The generation prompt of `Consensus.execute` (consensus.py lines 24-27). -/
def consensusPrompt (task : String) : String :=
  "Generate code for the following task. Return ONLY the code.\n\nTask: " ++ task

/-- `Consensus.execute` (consensus.py lines 18-50): fan the same prompt out to
"claude" and "codex", then ask "dispatch" to merge. -/
def consensusExecute (task : String) (claude codex dispatch : AgentFun) :
    StrategyOutput :=
  let prompt := consensusPrompt task
  let claude_output := claude 0 prompt
  let codex_output := codex 0 prompt
  let dispatch_prompt :=
    "Compare these two implementations and produce the best final version.\n\n"
    ++ "Implementation A (Claude):\n" ++ claude_output ++ "\n\n"
    ++ "Implementation B (Codex):\n" ++ codex_output ++ "\n\n"
    ++ "Respond with JSON containing:\n"
    ++ "- \"code\": the best implementation\n"
    ++ "- \"agreement\": true if both are functionally equivalent\n"
    ++ "- \"confidence\": float 0-1\n"
    ++ "- \"divergences\": list of differences if any\n"
  let dispatch_output := dispatch 0 dispatch_prompt
  [("claude_output", .str claude_output), ("codex_output", .str codex_output),
   ("dispatch_output", .str dispatch_output), ("strategy", .str "consensus")]

/-! ## Claim C2: cross-vendor agreement -/

/-- Agreement as the claim words it: computed whenever both the
`claude_output` and `codex_output` KEYS are present (1.0 on equality, 0.7
otherwise), with the default 1.0 of the code when either key is missing.  Stated from
the spec, to be compared with `engineAgreement`. -/
def specAgreementKeys (result : StrategyOutput) : ℚ :=
  match result.get "claude_output", result.get "codex_output" with
  | some a, some b => if a = b then 1 else 7/10
  | _, _ => 1

/-- An output mapping in which both keys are present but the claude text is
empty. -/
def mixedEmptyOutput : StrategyOutput :=
  [("claude_output", .str ""), ("codex_output", .str "x")]

/-- C2 counterexample: with `claude_output = ""` and `codex_output = "x"`
both keys are present and the strings differ, so the claim dictates 0.7;
the truthiness guard of the engine skips the computation and leaves the default
1.0. -/
theorem C2_counterexample :
    engineAgreement mixedEmptyOutput = 1 ∧
    specAgreementKeys mixedEmptyOutput = 7/10 := by
  constructor
  · rfl
  · simp [specAgreementKeys, mixedEmptyOutput, StrategyOutput.get, List.find?]

/-- C2 (amended: the agreement is computed only when both values are present
AND truthy, i.e. non-empty; the counterexample with an empty string forces
the truthiness qualification): both truthy values give 1.0 iff equal else
0.7; a falsy value or a missing key leaves the default 1.0; composed with
Consensus, identical non-empty agent texts give 1.0 and differing non-empty
texts give 0.7. -/
theorem C2_agreement :
    (∀ (m : StrategyOutput) (a b : PyObj),
        m.get "claude_output" = some a → m.get "codex_output" = some b →
        a.truthy = true → b.truthy = true →
        engineAgreement m = if a = b then 1 else 7/10) ∧
    (∀ (m : StrategyOutput) (a b : PyObj),
        m.get "claude_output" = some a → m.get "codex_output" = some b →
        ¬(a.truthy = true ∧ b.truthy = true) →
        engineAgreement m = 1) ∧
    (∀ m : StrategyOutput,
        m.get "claude_output" = none ∨ m.get "codex_output" = none →
        engineAgreement m = 1) ∧
    (∀ (agents : List String) (task : String) (claude codex dispatch : AgentFun),
      (claude 0 (consensusPrompt task) = codex 0 (consensusPrompt task) →
        claude 0 (consensusPrompt task) ≠ "" →
        (engineRun agents "consensus"
          (consensusExecute task claude codex dispatch)).confidence.cross_vendor_agreement
          = 1) ∧
      (claude 0 (consensusPrompt task) ≠ codex 0 (consensusPrompt task) →
        claude 0 (consensusPrompt task) ≠ "" →
        codex 0 (consensusPrompt task) ≠ "" →
        (engineRun agents "consensus"
          (consensusExecute task claude codex dispatch)).confidence.cross_vendor_agreement
          = 7/10)) := by
  refine ⟨?_, ?_, ?_, ?_⟩
  · intro m a b ha hb hta htb
    unfold engineAgreement
    rw [ha, hb]
    simp [hta, htb]
  · intro m a b ha hb hnt
    unfold engineAgreement
    rw [ha, hb]
    cases hA : a.truthy with
    | false => simp [hA]
    | true =>
      cases hB : b.truthy with
      | false => simp [hB]
      | true => exact absurd ⟨hA, hB⟩ hnt
  · intro m hm
    unfold engineAgreement
    rcases hm with h | h
    · rw [h]
    · rw [h]
      rcases m.get "claude_output" with _ | a <;> rfl
  · intro agents task claude codex dispatch
    have hc : (consensusExecute task claude codex dispatch).get "claude_output"
        = some (.str (claude 0 (consensusPrompt task))) := rfl
    have hx : (consensusExecute task claude codex dispatch).get "codex_output"
        = some (.str (codex 0 (consensusPrompt task))) := rfl
    have hrun : (engineRun agents "consensus"
        (consensusExecute task claude codex dispatch)).confidence.cross_vendor_agreement
        = engineAgreement (consensusExecute task claude codex dispatch) := rfl
    constructor
    · intro heq hne
      rw [hrun]
      unfold engineAgreement
      rw [hc, hx, heq]
      have hb : codex 0 (consensusPrompt task) ≠ "" := heq ▸ hne
      simp [PyObj.truthy, String.isEmpty_iff, hb]
    · intro hneq hne1 hne2
      rw [hrun]
      unfold engineAgreement
      rw [hc, hx]
      simp [PyObj.truthy, String.isEmpty_iff, hne1, hne2, hneq]

/-- C2 witness: the Consensus clause of the amended theorem at concrete agents
that both answer `"xyz"`, giving agreement 1. -/
theorem C2_witness :
    ((fun _ _ => "xyz" : AgentFun) 0 (consensusPrompt "t")
        = (fun _ _ => "xyz" : AgentFun) 0 (consensusPrompt "t") →
      (fun _ _ => "xyz" : AgentFun) 0 (consensusPrompt "t") ≠ "" →
      (engineRun ["claude", "codex", "dispatch"] "consensus"
        (consensusExecute "t" (fun _ _ => "xyz") (fun _ _ => "xyz")
          (fun _ _ => "merged"))).confidence.cross_vendor_agreement = 1) ∧
    (engineRun ["claude", "codex", "dispatch"] "consensus"
      (consensusExecute "t" (fun _ _ => "xyz") (fun _ _ => "xyz")
        (fun _ _ => "merged"))).confidence.cross_vendor_agreement = 1 := by
  have h := (C2_agreement.2.2.2 ["claude", "codex", "dispatch"] "t"
    (fun _ _ => "xyz") (fun _ _ => "xyz") (fun _ _ => "merged")).1
  exact ⟨h, h rfl (by decide)⟩

/-! ## Claim C10: the stubbed confidence fields of the engine -/

/-- C10: for every registered agent-name set (distinct names, as in a dict)
and every strategy output mapping, the normalized ConfidenceReport has
`architecture_preserved`, `tests_passing` and `owasp_clean` true and
`vulnerabilities_found` 0 regardless of the strategy outcome, while
`models_consulted` equals the number of registered agents and
`dependencies_verified` holds exactly when an agent is registered under
"ollama". -/
theorem C10_engine_stub_fields (agents : List String) (hnd : agents.Nodup)
    (strategyName : String) (result : StrategyOutput) :
    (engineRun agents strategyName result).confidence.architecture_preserved = true ∧
    (engineRun agents strategyName result).confidence.tests_passing = true ∧
    (engineRun agents strategyName result).confidence.owasp_clean = true ∧
    (engineRun agents strategyName result).confidence.vulnerabilities_found = 0 ∧
    (engineRun agents strategyName result).confidence.models_consulted
      = (agents.length : ℤ) ∧
    ((engineRun agents strategyName result).confidence.dependencies_verified = true
      ↔ "ollama" ∈ agents) := by
  refine ⟨rfl, rfl, rfl, rfl, rfl, ?_⟩
  show agents.contains "ollama" = true ↔ "ollama" ∈ agents
  exact List.elem_iff

/-- C10 witness: the theorem at a concrete three-agent registry and the
empty output mapping. -/
theorem C10_witness :
    (engineRun ["claude", "codex", "ollama"] "consensus" []).confidence.architecture_preserved
      = true ∧
    (engineRun ["claude", "codex", "ollama"] "consensus" []).confidence.tests_passing = true ∧
    (engineRun ["claude", "codex", "ollama"] "consensus" []).confidence.owasp_clean = true ∧
    (engineRun ["claude", "codex", "ollama"] "consensus" []).confidence.vulnerabilities_found
      = 0 ∧
    (engineRun ["claude", "codex", "ollama"] "consensus" []).confidence.models_consulted
      = ((["claude", "codex", "ollama"] : List String).length : ℤ) ∧
    ((engineRun ["claude", "codex", "ollama"] "consensus" []).confidence.dependencies_verified
      = true ↔ "ollama" ∈ (["claude", "codex", "ollama"] : List String)) :=
  C10_engine_stub_fields ["claude", "codex", "ollama"] (by decide) "consensus" []

/-! ## `claude_codex/strategies/adversarial.py` -/

/-- Attack prompt (adversarial.py lines 44-49). -/
def advAttackPrompt (build_output : String) : String :=
  "You are a security adversary. Find vulnerabilities, edge cases, and "
  ++ "potential exploits in this code. Be thorough and aggressive.\n\n"
  ++ "Code to attack:\n```\n" ++ build_output ++ "\n```\n\n"
  ++ "List every issue you find with severity ratings."

/-- Fuzz prompt (adversarial.py lines 54-58). -/
def advFuzzPrompt (build_output : String) : String :=
  "Generate adversarial inputs and edge cases for this code. "
  ++ "Try to break it with unexpected types, boundary values, "
  ++ "injection attempts, and malformed data.\n\n"
  ++ "Code to fuzz:\n```\n" ++ build_output ++ "\n```"

/-- Fix prompt (adversarial.py lines 65-71). -/
def advFixPrompt (build attack fuzz : String) : String :=
  "Your code was attacked and fuzzed. Fix ALL issues found.\n\n"
  ++ "Original code:\n```\n" ++ build ++ "\n```\n\n"
  ++ "Attacks found:\n" ++ attack ++ "\n\n"
  ++ "Fuzz results:\n" ++ fuzz ++ "\n\n"
  ++ "Return the hardened code only."

/-- Mutable state of the adversarial round loop, plus a trace of
(role, prompt) agent invocations in call order. -/
structure AdvState where
  build_output : String
  attack_output : String
  fuzz_output : String
  all_attacks : List String
  all_fuzzes : List String
  trace : List (String × String)

/-- The `for round_num in range(self.rounds)` loop of `Adversarial.execute`
(adversarial.py lines 42-72): attack by "codex", fuzz by "ollama", and a
hardening pass by "claude" exactly when `round_num < rounds - 1`. -/
def adversarialRounds (claude codex ollama : AgentFun) (rounds : Nat) :
    Nat → AdvState → AdvState
  | round_num, st =>
    if h : round_num < rounds then
      if round_num < rounds - 1 then
        adversarialRounds claude codex ollama rounds (round_num + 1)
          { build_output := claude (round_num + 1) (advFixPrompt st.build_output
              (codex round_num (advAttackPrompt st.build_output))
              (ollama round_num (advFuzzPrompt st.build_output)))
            attack_output := codex round_num (advAttackPrompt st.build_output)
            fuzz_output := ollama round_num (advFuzzPrompt st.build_output)
            all_attacks := st.all_attacks ++ [codex round_num (advAttackPrompt st.build_output)]
            all_fuzzes := st.all_fuzzes ++ [ollama round_num (advFuzzPrompt st.build_output)]
            trace := st.trace ++ [("codex", advAttackPrompt st.build_output),
              ("ollama", advFuzzPrompt st.build_output),
              ("claude", advFixPrompt st.build_output
                (codex round_num (advAttackPrompt st.build_output))
                (ollama round_num (advFuzzPrompt st.build_output)))] }
      else
        adversarialRounds claude codex ollama rounds (round_num + 1)
          { build_output := st.build_output
            attack_output := codex round_num (advAttackPrompt st.build_output)
            fuzz_output := ollama round_num (advFuzzPrompt st.build_output)
            all_attacks := st.all_attacks ++ [codex round_num (advAttackPrompt st.build_output)]
            all_fuzzes := st.all_fuzzes ++ [ollama round_num (advFuzzPrompt st.build_output)]
            trace := st.trace ++ [("codex", advAttackPrompt st.build_output),
              ("ollama", advFuzzPrompt st.build_output)] }
    else st
termination_by round_num _ => rounds - round_num
decreasing_by all_goals omega

/-- `Adversarial.execute` (adversarial.py lines 19-92), returning the
named-output mapping and the (role, prompt) call trace. -/
def adversarialExecute (rounds : Nat) (task : String)
    (claude codex ollama dispatch : AgentFun) :
    StrategyOutput × List (String × String) :=
  let build_prompt :=
    "Write production-quality code for this task. Return ONLY code.\n\nTask: " ++ task
  let build_output := claude 0 build_prompt
  let st := adversarialRounds claude codex ollama rounds 0
    { build_output := build_output, attack_output := "", fuzz_output := ""
      all_attacks := [], all_fuzzes := [], trace := [("claude", build_prompt)] }
  let dispatch_prompt :=
    "Final verification. Review code that survived adversarial testing.\n\n"
    ++ "Final code:\n```\n" ++ st.build_output ++ "\n```\n\n"
    ++ "Attacks it survived:\n" ++ String.intercalate "\n" st.all_attacks ++ "\n\n"
    ++ "Fuzz tests it survived:\n" ++ String.intercalate "\n" st.all_fuzzes ++ "\n\n"
    ++ "Provide final verdict and confidence score."
  let dispatch_output := dispatch 0 dispatch_prompt
  ([("build_output", .str st.build_output), ("attack_output", .str st.attack_output),
    ("fuzz_output", .str st.fuzz_output), ("dispatch_output", .str dispatch_output),
    ("rounds", .int (rounds : ℤ)), ("total_attacks", .int (st.all_attacks.length : ℤ)),
    ("strategy", .str "adversarial")],
   st.trace ++ [("dispatch", dispatch_prompt)])

/-- Number of attack transcripts and of "claude" (build/fix) calls produced
by the round loop: `rounds - round_num` attacks remain, and
`rounds - 1 - round_num` further fix passes. -/
theorem adversarialRounds_stats (claude codex ollama : AgentFun)
    (rounds round_num : Nat) (st : AdvState) :
    (adversarialRounds claude codex ollama rounds round_num st).all_attacks.length
      = st.all_attacks.length + (rounds - round_num) ∧
    (adversarialRounds claude codex ollama rounds round_num st).trace.countP
        (fun p => p.1 = "claude")
      = st.trace.countP (fun p => p.1 = "claude") + (rounds - 1 - round_num) := by
  have main : ∀ (fuel round_num : Nat) (st : AdvState), rounds - round_num ≤ fuel →
      (adversarialRounds claude codex ollama rounds round_num st).all_attacks.length
        = st.all_attacks.length + (rounds - round_num) ∧
      (adversarialRounds claude codex ollama rounds round_num st).trace.countP
          (fun p => p.1 = "claude")
        = st.trace.countP (fun p => p.1 = "claude") + (rounds - 1 - round_num) := by
    intro fuel
    induction fuel with
    | zero =>
      intro round_num st hle
      have hge : ¬ round_num < rounds := by omega
      rw [adversarialRounds]
      simp only [hge, dif_neg, not_false_iff]
      constructor <;> omega
    | succ n ih =>
      intro round_num st hle
      by_cases hlt : round_num < rounds
      · rw [adversarialRounds]
        rw [dif_pos hlt]
        by_cases hfix : round_num < rounds - 1
        · rw [if_pos hfix]
          rw [(ih (round_num + 1) _ (by omega)).1, (ih (round_num + 1) _ (by omega)).2]
          simp [List.countP_append, List.countP_cons]
          constructor <;> omega
        · rw [if_neg hfix]
          rw [(ih (round_num + 1) _ (by omega)).1, (ih (round_num + 1) _ (by omega)).2]
          simp [List.countP_append, List.countP_cons]
          constructor <;> omega
      · rw [adversarialRounds]
        rw [dif_neg hlt]
        constructor <;> omega
  exact main (rounds - round_num) round_num st le_rfl

/-! ## Claim C4: adversarial build-call count -/

/-- C4: for every `rounds = N ≥ 1` and all agent behaviors, the "claude"
build role is invoked exactly N times (one initial build plus N-1 fix
passes, the fix pass happening exactly when `round_num < rounds - 1`), the
returned `total_attacks` equals N, and `rounds = 1` performs
build, attack, fuzz, dispatch with no fix pass. -/
theorem C4_adversarial_build_calls :
    (∀ (rounds : Nat) (task : String) (claude codex ollama dispatch : AgentFun),
      1 ≤ rounds →
      (adversarialExecute rounds task claude codex ollama dispatch).2.countP
        (fun p => p.1 = "claude") = rounds ∧
      (adversarialExecute rounds task claude codex ollama dispatch).1.get
        "total_attacks" = some (.int (rounds : ℤ))) ∧
    (∀ (task : String) (claude codex ollama dispatch : AgentFun),
      (adversarialExecute 1 task claude codex ollama dispatch).2.map Prod.fst
        = ["claude", "codex", "ollama", "dispatch"]) := by
  constructor
  · intro rounds task claude codex ollama dispatch h1
    constructor
    · simp only [adversarialExecute]
      rw [List.countP_append]
      rw [(adversarialRounds_stats claude codex ollama rounds 0 _).2]
      simp [List.countP_cons]
      omega
    · simp only [adversarialExecute, StrategyOutput.get, List.find?]
      rw [(adversarialRounds_stats claude codex ollama rounds 0 _).1]
      simp
  · intro task claude codex ollama dispatch
    simp [adversarialExecute, adversarialRounds]

/-- C4 witness: the count theorem at rounds = 3 with constant agents. -/
theorem C4_witness :
    (adversarialExecute 3 "t" (fun _ _ => "b") (fun _ _ => "a") (fun _ _ => "f")
      (fun _ _ => "d")).2.countP (fun p => p.1 = "claude") = 3 ∧
    (adversarialExecute 3 "t" (fun _ _ => "b") (fun _ _ => "a") (fun _ _ => "f")
      (fun _ _ => "d")).1.get "total_attacks" = some (.int (3 : ℤ)) :=
  C4_adversarial_build_calls.1 3 "t" (fun _ _ => "b") (fun _ _ => "a")
    (fun _ _ => "f") (fun _ _ => "d") (by norm_num)

/-! ## `crowe_codex/strategies/verification.py` -/

/-- Initial code prompt (verification.py lines 30-33). -/
def verifCodePrompt (task : String) : String :=
  "Write production-quality code for this task. Return ONLY code.\n\nTask: " ++ task

/-- Initial test prompt (verification.py lines 36-41). -/
def verifTestPrompt (code_output : String) : String :=
  "Write comprehensive tests for the following code. "
  ++ "Include edge cases, error conditions, and boundary values. "
  ++ "Return ONLY test code.\n\n"
  ++ "Code to test:\n```\n" ++ code_output ++ "\n```"

/-- Fix prompt (verification.py lines 49-53). -/
def verifFixPrompt (code tests : String) : String :=
  "Review this code against these tests. Fix any issues the tests "
  ++ "would catch. Return ONLY the fixed code.\n\n"
  ++ "Code:\n```\n" ++ code ++ "\n```\n\n"
  ++ "Tests:\n```\n" ++ tests ++ "\n```"

/-- Additional-tests prompt (verification.py lines 64-68). -/
def verifMorePrompt (code tests : String) : String :=
  "The code has been updated. Write additional tests that cover "
  ++ "any new behavior or remaining gaps.\n\n"
  ++ "Updated code:\n```\n" ++ code ++ "\n```\n\n"
  ++ "Existing tests:\n```\n" ++ tests ++ "\n```"

/-- Mutable state of the verification loop; `nc`/`nx` count the calls made
so far to the "claude"/"codex" roles (feeding the per-call index of
`AgentFun`), `trace` records (role, prompt) in call order. -/
structure VerifState where
  code_output : String
  test_output : String
  all_code : List String
  all_tests : List String
  nc : Nat
  nx : Nat
  trace : List (String × String)

/-- The `for i in range(1, self.iterations)` loop of `VerificationLoop.execute`
(verification.py lines 47-75): on odd `i` codex fixes the code and claude
writes additional tests, on even `i` the roles swap. -/
def verificationIters (claude codex : AgentFun) (iterations : Nat) :
    Nat → VerifState → VerifState
  | i, st =>
    if h : i < iterations then
      if i % 2 = 1 then
        verificationIters claude codex iterations (i + 1)
          { code_output := codex st.nx (verifFixPrompt st.code_output st.test_output)
            test_output := claude st.nc (verifMorePrompt
              (codex st.nx (verifFixPrompt st.code_output st.test_output)) st.test_output)
            all_code := st.all_code
              ++ [codex st.nx (verifFixPrompt st.code_output st.test_output)]
            all_tests := st.all_tests ++ [claude st.nc (verifMorePrompt
              (codex st.nx (verifFixPrompt st.code_output st.test_output)) st.test_output)]
            nc := st.nc + 1
            nx := st.nx + 1
            trace := st.trace
              ++ [("codex", verifFixPrompt st.code_output st.test_output),
                  ("claude", verifMorePrompt
                    (codex st.nx (verifFixPrompt st.code_output st.test_output))
                    st.test_output)] }
      else
        verificationIters claude codex iterations (i + 1)
          { code_output := claude st.nc (verifFixPrompt st.code_output st.test_output)
            test_output := codex st.nx (verifMorePrompt
              (claude st.nc (verifFixPrompt st.code_output st.test_output)) st.test_output)
            all_code := st.all_code
              ++ [claude st.nc (verifFixPrompt st.code_output st.test_output)]
            all_tests := st.all_tests ++ [codex st.nx (verifMorePrompt
              (claude st.nc (verifFixPrompt st.code_output st.test_output)) st.test_output)]
            nc := st.nc + 1
            nx := st.nx + 1
            trace := st.trace
              ++ [("claude", verifFixPrompt st.code_output st.test_output),
                  ("codex", verifMorePrompt
                    (claude st.nc (verifFixPrompt st.code_output st.test_output))
                    st.test_output)] }
    else st
termination_by i _ => iterations - i
decreasing_by all_goals omega

/-- `VerificationLoop.execute` (verification.py lines 19-95), returning the
named-output mapping and the (role, prompt) call trace. -/
def verificationExecute (iterations : Nat) (task : String)
    (claude codex dispatch : AgentFun) :
    StrategyOutput × List (String × String) :=
  let code_output := claude 0 (verifCodePrompt task)
  let test_output := codex 0 (verifTestPrompt code_output)
  let st := verificationIters claude codex iterations 1
    { code_output := code_output, test_output := test_output
      all_code := [code_output], all_tests := [test_output]
      nc := 1, nx := 1
      trace := [("claude", verifCodePrompt task), ("codex", verifTestPrompt code_output)] }
  let dispatch_prompt :=
    "Verify this code passes its tests and is production-ready.\n\n"
    ++ "Final code:\n```\n" ++ st.code_output ++ "\n```\n\n"
    ++ "Final tests:\n```\n" ++ st.test_output ++ "\n```\n\n"
    ++ "Iterations performed: " ++ toString iterations ++ "\n"
    ++ "Provide verdict and confidence score."
  let dispatch_output := dispatch 0 dispatch_prompt
  ([("code_output", .str st.code_output), ("test_output", .str st.test_output),
    ("dispatch_output", .str dispatch_output), ("iterations", .int (iterations : ℤ)),
    ("code_versions", .int (st.all_code.length : ℤ)),
    ("test_versions", .int (st.all_tests.length : ℤ)),
    ("strategy", .str "verification_loop")],
   st.trace ++ [("dispatch", dispatch_prompt)])

/-- Roles called during iteration `i`, as the claim words the alternation:
odd iterations have "codex" fix and "claude" test, even ones the opposite. -/
def iterRoles (i : Nat) : List String :=
  if i % 2 = 1 then ["codex", "claude"] else ["claude", "codex"]

/-- Per-iteration bookkeeping of the verification loop: one code version and
one test version per iteration, and the call roles follow `iterRoles`. -/
theorem verificationIters_stats (claude codex : AgentFun) (iterations i : Nat)
    (st : VerifState) :
    (verificationIters claude codex iterations i st).all_code.length
      = st.all_code.length + (iterations - i) ∧
    (verificationIters claude codex iterations i st).all_tests.length
      = st.all_tests.length + (iterations - i) ∧
    (verificationIters claude codex iterations i st).trace.map Prod.fst
      = st.trace.map Prod.fst ++ ((List.range' i (iterations - i)).map iterRoles).flatten := by
  have main : ∀ (fuel i : Nat) (st : VerifState), iterations - i ≤ fuel →
      (verificationIters claude codex iterations i st).all_code.length
        = st.all_code.length + (iterations - i) ∧
      (verificationIters claude codex iterations i st).all_tests.length
        = st.all_tests.length + (iterations - i) ∧
      (verificationIters claude codex iterations i st).trace.map Prod.fst
        = st.trace.map Prod.fst
          ++ ((List.range' i (iterations - i)).map iterRoles).flatten := by
    intro fuel
    induction fuel with
    | zero =>
      intro i st hle
      have hge : ¬ i < iterations := by
        omega
      rw [verificationIters]
      rw [dif_neg hge]
      have hz : iterations - i = 0 := by omega
      simp [hz]
    | succ n ih =>
      intro i st hle
      by_cases hlt : i < iterations
      · have hrange : List.range' i (iterations - i)
            = i :: List.range' (i + 1) (iterations - (i + 1)) := by
          have hsplit : iterations - i = (iterations - (i + 1)) + 1 := by omega
          rw [hsplit, List.range'_succ]
        rw [verificationIters]
        rw [dif_pos hlt]
        by_cases hodd : i % 2 = 1
        · rw [if_pos hodd]
          obtain ⟨ih1, ih2, ih3⟩ := ih (i + 1) _ (by omega)
          rw [ih1, ih2, ih3]
          refine ⟨by simp; omega, by simp; omega, ?_⟩
          rw [hrange]
          simp [iterRoles, hodd]
        · rw [if_neg hodd]
          obtain ⟨ih1, ih2, ih3⟩ := ih (i + 1) _ (by omega)
          rw [ih1, ih2, ih3]
          refine ⟨by simp; omega, by simp; omega, ?_⟩
          rw [hrange]
          simp [iterRoles, hodd]
      · rw [verificationIters]
        rw [dif_neg hlt]
        have hz : iterations - i = 0 := by omega
        simp [hz]
  exact main (iterations - i) i st le_rfl

/-- Role sequence of a VerificationLoop run as the claim words it: initial
claude code and codex tests, then per iteration i (1 ≤ i < N) the fixer is
"codex" when i is odd and "claude" when i is even with the test writer the
opposite role, then a final dispatch verdict. -/
def specVerifRoles (iterations : Nat) : List String :=
  ["claude", "codex"]
    ++ ((List.range' 1 (iterations - 1)).map iterRoles).flatten
    ++ ["dispatch"]

/-! ## Claim C5: verification loop counts and alternation -/

/-- C5: for every `iterations = N ≥ 1` and all agent behaviors, the run
returns `code_versions = N` and `test_versions = N`, and the roles invoked
are exactly the strictly alternating sequence `specVerifRoles N`. -/
theorem C5_verification_loop (iterations : Nat) (task : String)
    (claude codex dispatch : AgentFun) (h1 : 1 ≤ iterations) :
    (verificationExecute iterations task claude codex dispatch).1.get
      "code_versions" = some (.int (iterations : ℤ)) ∧
    (verificationExecute iterations task claude codex dispatch).1.get
      "test_versions" = some (.int (iterations : ℤ)) ∧
    (verificationExecute iterations task claude codex dispatch).2.map Prod.fst
      = specVerifRoles iterations := by
  obtain ⟨hcode, htests, htrace⟩ := verificationIters_stats claude codex iterations 1
    { code_output := claude 0 (verifCodePrompt task)
      test_output := codex 0 (verifTestPrompt (claude 0 (verifCodePrompt task)))
      all_code := [claude 0 (verifCodePrompt task)]
      all_tests := [codex 0 (verifTestPrompt (claude 0 (verifCodePrompt task)))]
      nc := 1, nx := 1
      trace := [("claude", verifCodePrompt task),
        ("codex", verifTestPrompt (claude 0 (verifCodePrompt task)))] }
  refine ⟨?_, ?_, ?_⟩
  · simp only [verificationExecute, StrategyOutput.get, List.find?]
    rw [hcode]
    simp
    omega
  · simp only [verificationExecute, StrategyOutput.get, List.find?]
    rw [htests]
    simp
    omega
  · simp only [verificationExecute, List.map_append]
    rw [htrace]
    simp [specVerifRoles]

/-- C5 witness: the theorem at iterations = 3 with constant agents; the
role sequence is claude, codex, then codex/claude (i = 1 odd), then
claude/codex (i = 2 even), then dispatch. -/
theorem C5_witness :
    (verificationExecute 3 "t" (fun _ _ => "c") (fun _ _ => "x")
      (fun _ _ => "d")).1.get "code_versions" = some (.int (3 : ℤ)) ∧
    (verificationExecute 3 "t" (fun _ _ => "c") (fun _ _ => "x")
      (fun _ _ => "d")).1.get "test_versions" = some (.int (3 : ℤ)) ∧
    (verificationExecute 3 "t" (fun _ _ => "c") (fun _ _ => "x")
      (fun _ _ => "d")).2.map Prod.fst = specVerifRoles 3 :=
  C5_verification_loop 3 "t" (fun _ _ => "c") (fun _ _ => "x") (fun _ _ => "d")
    (by norm_num)

/-! ## `crowe_codex/strategies/evolutionary.py` -/

/-- Generation-0 base prompt (evolutionary.py lines 38-43). -/
def evoGenPrompt (task : String) : String :=
  "Write a complete, production-quality solution for this task. "
  ++ "Be creative and consider multiple approaches.\n\n"
  ++ "Task: " ++ task ++ "\n\n"
  ++ "Return ONLY code."

/-- Variant prompt for the i-th generation-0 candidate (evolutionary.py
lines 48-51): the emphasized trait rotates by `i % 3`. -/
def evoVariantPrompt (task : String) (i : Nat) : String :=
  evoGenPrompt task ++ "\n\nVariant #" ++ toString (i + 1) ++ ": "
  ++ "Emphasize "
  ++ (if i % 3 = 0 then "performance" else if i % 3 = 1 then "readability"
      else "robustness")
  ++ "."

/-- The numbered candidate block appended to fitness/crossover prompts
(evolutionary.py lines 64-65 and 80-81). -/
def evoCandidatesBlock (candidates : List String) : String :=
  String.join (candidates.enum.map (fun p =>
    "--- Candidate " ++ toString (p.1 + 1) ++ " ---\n" ++ p.2 ++ "\n\n"))

/-- Fitness-ranking prompt (evolutionary.py lines 61-69). -/
def evoFitnessPrompt (task : String) (candidates : List String) : String :=
  "Rank these " ++ toString candidates.length ++ " code candidates for the task: "
  ++ task ++ "\n\n"
  ++ evoCandidatesBlock candidates
  ++ "Score each candidate 1-10 on: correctness, performance, "
  ++ "readability, robustness. Return rankings."

/-- Crossover prompt (evolutionary.py lines 73-81). -/
def evoCrossoverPrompt (population : Nat) (fitness_output : String)
    (candidates : List String) : String :=
  "You\x27ve evaluated these candidates:\n" ++ fitness_output ++ "\n\n"
  ++ "Now produce " ++ toString population ++ " improved candidates by combining "
  ++ "the best traits. Fix any issues found. Return ONLY code for each "
  ++ "candidate, separated by \x27---CANDIDATE---\x27.\n\n"
  ++ "Original candidates:\n"
  ++ evoCandidatesBlock candidates

/-- Final selection prompt (evolutionary.py lines 96-104). -/
def evoFinalPrompt (task : String) (candidates : List String) : String :=
  "Select the best candidate from the final generation.\n\n"
  ++ "Task: " ++ task ++ "\n\n"
  ++ evoCandidatesBlock candidates
  ++ "Pick the best one. Return the winning code and explain why."

/-- The `while len(candidates) < self.population` padding loop
(evolutionary.py lines 90-91): append the last candidate (or "" when the
list is empty) until the population size is reached.  Each pass grows the
list by one, so `population` passes of fuel always suffice. -/
def padCandidates (population : Nat) : Nat → List String → List String
  | 0, cs => cs
  | fuel + 1, cs =>
    if cs.length < population then
      padCandidates population fuel
        (cs ++ [match cs.getLast? with | some c => c | none => ""])
    else cs

/-- The candidate list produced from a crossover response (evolutionary.py
lines 84-92): split on the separator, strip, drop blanks, pad, truncate. -/
def evoNextCandidates (population : Nat) (crossover_output : String) : List String :=
  (padCandidates population population
    (((crossover_output.splitOn "---CANDIDATE---").map String.trim).filter
      (fun c => c ≠ ""))).take population

/-- Evolution-loop state: the current candidate list and the per-generation
history `all_generations`. -/
structure EvoState where
  candidates : List String
  all_generations : List (List String)

/-- The `for gen in range(1, self.generations)` loop (evolutionary.py lines
58-93); the evaluator and the crossover ("claude") agent receive the
generation number as their per-call index. -/
def evolutionLoop (claude evaluator : AgentFun) (task : String)
    (population generations : Nat) : Nat → EvoState → EvoState
  | gen, st =>
    if h : gen < generations then
      evolutionLoop claude evaluator task population generations (gen + 1)
        { candidates := evoNextCandidates population
            (claude gen (evoCrossoverPrompt population
              (evaluator gen (evoFitnessPrompt task st.candidates)) st.candidates))
          all_generations := st.all_generations
            ++ [evoNextCandidates population
                (claude gen (evoCrossoverPrompt population
                  (evaluator gen (evoFitnessPrompt task st.candidates)) st.candidates))] }
    else st
termination_by gen _ => generations - gen
decreasing_by all_goals omega

/-- `agents[name]` on the agent mapping. -/
def agentLookup (agents : List (String × AgentFun)) (name : String) :
    Option AgentFun :=
  (agents.find? (fun p => p.1 = name)).map (·.2)

/-- The body of `Evolutionary.execute` (evolutionary.py lines 22-114) once
the required "claude"/"codex"/"dispatch" lookups have succeeded; returns
the named-output mapping together with `all_generations`.  The i-th
generation-0 task uses call index i; the `workers.getD` default is
unreachable because the "claude" entry makes `workers` non-empty. -/
def evoWorkers (agents : List (String × AgentFun)) : List AgentFun :=
  (agents.filter (fun p => p.1 ≠ "dispatch")).map (·.2)

/-- Generation 0 (evolutionary.py lines 45-54): `population` concurrent
tasks cycling the workers round-robin. -/
def evoGen0 (agents : List (String × AgentFun)) (task : String)
    (population : Nat) : List String :=
  (List.range population).map (fun i =>
    ((evoWorkers agents).getD (i % (evoWorkers agents).length) (fun _ _ => ""))
      i (evoVariantPrompt task i))

/-- `agents.get("ollama", codex)` (evolutionary.py line 60). -/
def evoEvaluator (agents : List (String × AgentFun)) (codex : AgentFun) :
    AgentFun :=
  match agentLookup agents "ollama" with
  | some o => o
  | none => codex

def evolutionaryRun (population generations : Nat) (task : String)
    (agents : List (String × AgentFun)) (claude codex dispatch : AgentFun) :
    StrategyOutput × List (List String) :=
  let gen0 := evoGen0 agents task population
  let st := evolutionLoop claude (evoEvaluator agents codex) task population
    generations 1 { candidates := gen0, all_generations := [gen0] }
  let dispatch_output := dispatch 0 (evoFinalPrompt task st.candidates)
  (([("candidates", .listStr st.candidates),
     ("generations", .int (st.all_generations.length : ℤ)),
     ("population", .int (population : ℤ)),
     ("dispatch_output", .str dispatch_output),
     ("total_candidates_evaluated",
       .int ((st.all_generations.map List.length).sum : ℤ)),
     ("strategy", .str "evolutionary")]),
   st.all_generations)

/-- `Evolutionary.execute` (evolutionary.py lines 22-114): the
`agents["claude"]`, `agents["codex"]` and `agents["dispatch"]` lookups
raise KeyError when absent, modelled as `none`. -/
def evolutionaryExecute (population generations : Nat) (task : String)
    (agents : List (String × AgentFun)) :
    Option (StrategyOutput × List (List String)) :=
  match agentLookup agents "claude", agentLookup agents "codex",
      agentLookup agents "dispatch" with
  | some claude, some codex, some dispatch =>
    some (evolutionaryRun population generations task agents claude codex dispatch)
  | _, _, _ => none

theorem padCandidates_length (population : Nat) :
    ∀ (fuel : Nat) (cs : List String), population ≤ cs.length + fuel →
      population ≤ (padCandidates population fuel cs).length := by
  intro fuel
  induction fuel with
  | zero =>
    intro cs h
    rw [padCandidates]
    omega
  | succ n ih =>
    intro cs h
    rw [padCandidates]
    by_cases hlt : cs.length < population
    · rw [if_pos hlt]
      refine ih _ ?_
      simp
      omega
    · rw [if_neg hlt]
      omega

theorem evoNextCandidates_length (population : Nat) (crossover_output : String) :
    (evoNextCandidates population crossover_output).length = population := by
  unfold evoNextCandidates
  rw [List.length_take]
  have := padCandidates_length population population
    (((crossover_output.splitOn "---CANDIDATE---").map String.trim).filter
      (fun c => c ≠ "")) (by omega)
  omega

/-- Every generation recorded by the evolution loop, and the final candidate
list, keeps exactly `population` members. -/
theorem evolutionLoop_lengths (claude evaluator : AgentFun) (task : String)
    (population generations gen : Nat) (st : EvoState)
    (hall : ∀ g ∈ st.all_generations, g.length = population)
    (hcur : st.candidates.length = population) :
    (∀ g ∈ (evolutionLoop claude evaluator task population generations gen st).all_generations,
      g.length = population) ∧
    (evolutionLoop claude evaluator task population generations gen st).candidates.length
      = population := by
  have main : ∀ (fuel gen : Nat) (st : EvoState), generations - gen ≤ fuel →
      (∀ g ∈ st.all_generations, g.length = population) →
      st.candidates.length = population →
      (∀ g ∈ (evolutionLoop claude evaluator task population generations
          gen st).all_generations, g.length = population) ∧
      (evolutionLoop claude evaluator task population generations
          gen st).candidates.length = population := by
    intro fuel
    induction fuel with
    | zero =>
      intro gen st hle hall hcur
      have hge : ¬ gen < generations := by omega
      rw [evolutionLoop]
      rw [dif_neg hge]
      exact ⟨hall, hcur⟩
    | succ n ih =>
      intro gen st hle hall hcur
      by_cases hlt : gen < generations
      · rw [evolutionLoop]
        rw [dif_pos hlt]
        refine ih (gen + 1) _ (by omega) ?_ (evoNextCandidates_length _ _)
        intro g hg
        rcases List.mem_append.mp hg with h | h
        · exact hall g h
        · rcases List.mem_singleton.mp h with rfl
          exact evoNextCandidates_length _ _
      · rw [evolutionLoop]
        rw [dif_neg hlt]
        exact ⟨hall, hcur⟩
  exact main (generations - gen) gen st le_rfl hall hcur

/-! ## Claim C3: evolutionary population invariant -/

/-- C3: for every population `p ≥ 1` and all agent behaviors, whenever
`Evolutionary.execute` succeeds (its required "claude"/"codex"/"dispatch"
roles are registered), the candidate list after generation 0 and after
every subsequent generation has length exactly `p`, and so does the list
returned under the "candidates" key: short crossover responses are padded
by duplicating the last candidate, excess is truncated. -/
theorem C3_evolutionary_population (population generations : Nat) (task : String)
    (agents : List (String × AgentFun)) (out : StrategyOutput)
    (gens : List (List String)) (hp : 1 ≤ population)
    (hrun : evolutionaryExecute population generations task agents = some (out, gens)) :
    (∀ g ∈ gens, g.length = population) ∧
    ∃ cs : List String, out.get "candidates" = some (.listStr cs) ∧
      cs.length = population := by
  unfold evolutionaryExecute at hrun
  rcases hc : agentLookup agents "claude" with _ | claude <;> rw [hc] at hrun
  · simp at hrun
  rcases hx : agentLookup agents "codex" with _ | codex <;> rw [hx] at hrun
  · simp at hrun
  rcases hd : agentLookup agents "dispatch" with _ | dispatch <;> rw [hd] at hrun
  · simp at hrun
  rw [Option.some.injEq] at hrun
  have h1 : out = (evolutionaryRun population generations task agents
      claude codex dispatch).1 := by rw [hrun]
  have h2 : gens = (evolutionaryRun population generations task agents
      claude codex dispatch).2 := by rw [hrun]
  subst h1
  subst h2
  have hgen0 : (evoGen0 agents task population).length = population := by
    simp [evoGen0]
  obtain ⟨hall, hcur⟩ := evolutionLoop_lengths claude (evoEvaluator agents codex)
    task population generations 1
    { candidates := evoGen0 agents task population
      all_generations := [evoGen0 agents task population] }
    (by
      intro g hg
      rcases List.mem_singleton.mp hg with rfl
      exact hgen0)
    hgen0
  exact ⟨hall, _, rfl, hcur⟩

/-- C3 witness: a two-agent run (population 3, generations 2) whose
crossover agent returns a single candidate, which the padding rule expands
back to 3. -/
theorem C3_witness :
    (1 ≤ 3 ∧
      evolutionaryExecute 3 2 "t"
          [("claude", fun _ _ => "only-one"), ("codex", fun _ _ => "x"),
           ("dispatch", fun _ _ => "d")]
        = some (evolutionaryRun 3 2 "t"
            [("claude", fun _ _ => "only-one"), ("codex", fun _ _ => "x"),
             ("dispatch", fun _ _ => "d")]
            (fun _ _ => "only-one") (fun _ _ => "x") (fun _ _ => "d"))) ∧
    ((∀ g ∈ (evolutionaryRun 3 2 "t"
          [("claude", fun _ _ => "only-one"), ("codex", fun _ _ => "x"),
           ("dispatch", fun _ _ => "d")]
          (fun _ _ => "only-one") (fun _ _ => "x") (fun _ _ => "d")).2,
        g.length = 3) ∧
      ∃ cs : List String,
        (evolutionaryRun 3 2 "t"
          [("claude", fun _ _ => "only-one"), ("codex", fun _ _ => "x"),
           ("dispatch", fun _ _ => "d")]
          (fun _ _ => "only-one") (fun _ _ => "x") (fun _ _ => "d")).1.get
            "candidates" = some (.listStr cs) ∧ cs.length = 3) :=
  ⟨⟨by norm_num, rfl⟩,
    C3_evolutionary_population 3 2 "t"
      [("claude", fun _ _ => "only-one"), ("codex", fun _ _ => "x"),
       ("dispatch", fun _ _ => "d")] _ _ (by norm_num) rfl⟩

/-! ## `crowe_codex/strategies/router.py` -/

/-- Python substring membership on explicit character lists. -/
def listInfix (needle : List Char) : List Char → Bool
  | [] => needle.isEmpty
  | c :: rest => needle.isPrefixOf (c :: rest) || listInfix needle rest

/-- Python `needle in hay` on strings. -/
def strContainsSub (hay needle : String) : Bool :=
  listInfix needle.toList hay.toList

/-- Python `task.lower()`, character-wise over the underlying list. -/
def pyLower (s : String) : String := String.mk (s.data.map Char.toLower)

/-- `TASK_SIGNALS` (router.py lines 14-20), in declared order. -/
def TASK_SIGNALS : List (String × List String) :=
  [("security", ["security", "auth", "encrypt", "xss", "injection", "owasp",
     "vulnerability"]),
   ("performance", ["optimize", "fast", "performance", "benchmark", "cache",
     "latency"]),
   ("simple", ["simple", "basic", "hello", "print", "trivial", "small"]),
   ("complex", ["architecture", "system", "distributed", "microservice",
     "pipeline"]),
   ("testing", ["test", "coverage", "verify", "validate", "assert"])]

/-- `DEFAULT_ROUTING` (router.py lines 23-29). -/
def DEFAULT_ROUTING : List (String × String) :=
  [("security", "adversarial"), ("performance", "evolutionary"),
   ("simple", "consensus"), ("complex", "pipeline"),
   ("testing", "verification_loop")]

/-- `DEFAULT_ROUTING.get(signal)` (router.py line 118). -/
def defaultGet (signal : String) : Option String :=
  (DEFAULT_ROUTING.find? (fun p => p.1 = signal)).map (·.2)

/-- Keyword match of one signal category against a task (case-insensitive
substring scan, router.py lines 79-83 and 117). -/
def kwMatch (task : String) (keywords : List String) : Bool :=
  keywords.any (fun kw => strContainsSub (pyLower task) kw)

/-- `RoutingHistory._extract_signals` (router.py lines 77-83). -/
def extract_signals (task : String) : List String :=
  (TASK_SIGNALS.filter (fun p => kwMatch task p.2)).map (·.1)

/-- One persisted routing-history entry: extracted task signals, the chosen
strategy and the recorded outcome score. -/
structure RoutingRecord where
  task_signals : List String
  strategy : String
  score : ℚ
deriving DecidableEq, Repr

/-- `candidates.setdefault(strategy, []).append(score)` (router.py line 68):
scores accumulate under the first-seen key order, as in a Python dict. -/
def addScore : List (String × List ℚ) → String → ℚ → List (String × List ℚ)
  | [], k, v => [(k, [v])]
  | (k', vs) :: rest, k, v =>
    if k' = k then (k', vs ++ [v]) :: rest else (k', vs) :: addScore rest k v

/-- Average of a score list (router.py line 74). -/
def listAvg (l : List ℚ) : ℚ := l.sum / (l.length : ℚ)

/-- Tail of Python `max(candidates, key=avg)`: strictly greater replaces, so
the first key attaining the maximum wins. -/
def pyMaxAvgGo : List (String × List ℚ) → String → ℚ → String
  | [], bk, _ => bk
  | (k, vs) :: rest, bk, bv =>
    if listAvg vs > bv then pyMaxAvgGo rest k (listAvg vs)
    else pyMaxAvgGo rest bk bv

/-- Python `max(candidates, key=avg)` over the insertion-ordered dict. -/
def pyMaxAvg : List (String × List ℚ) → Option String
  | [] => none
  | (k, vs) :: rest => some (pyMaxAvgGo rest k (listAvg vs))

/-- `RoutingHistory.best_strategy_for` (router.py lines 56-75). -/
def best_strategy_for (history : List RoutingRecord) (task : String) :
    Option String :=
  let signals := extract_signals task
  if signals.isEmpty || history.isEmpty then none
  else
    let candidates := history.foldl (fun acc entry =>
      if signals.any (fun s => entry.task_signals.contains s) then
        addScore acc entry.strategy entry.score
      else acc) []
    pyMaxAvg candidates

/-- The static keyword fallback loop of `AdaptiveRouter.select_strategy`
(router.py lines 115-120): scan the signal categories in declared order and
return the first recommended default that is truthy and registered. -/
def staticScan (registry : List String) (task : String) :
    List (String × List String) → Option String
  | [] => none
  | (signal, keywords) :: rest =>
    if kwMatch task keywords then
      match defaultGet signal with
      | some recommended =>
        if recommended ≠ "" ∧ registry.contains recommended = true then
          some recommended
        else staticScan registry task rest
      | none => staticScan registry task rest
    else staticScan registry task rest

/-- Fallback chain of `select_strategy` after the learned lookup (router.py
lines 114-127): keyword scan, then "consensus" when registered, then the
first registered strategy (`none` models the StopIteration raised on an
empty registry). -/
def selectFallback (registry : List String) (task : String) : Option String :=
  match staticScan registry task TASK_SIGNALS with
  | some s => some s
  | none =>
    if registry.contains "consensus" then some "consensus" else registry.head?

/-- `AdaptiveRouter.select_strategy` (router.py lines 107-127) over the
registered strategy names in registration order; the returned name stands
for the registry entry the code returns. -/
def select_strategy (registry : List String) (history : List RoutingRecord)
    (task : String) : Option String :=
  match best_strategy_for history task with
  | some learned =>
    if learned ≠ "" ∧ registry.contains learned = true then some learned
    else selectFallback registry task
  | none => selectFallback registry task

/-! ## Claim C6: router selection precedence -/

/-- Steps (3)-(4) of the claimed precedence: "consensus" when registered,
else the first registered strategy. -/
def specConsensusChain (registry : List String) : Option String :=
  if registry.contains "consensus" then some "consensus" else registry.head?

/-- Step (2) of the claim read literally: the static keyword default of THE
first matching signal category in declared order; when that default is not
registered the chain moves directly to steps (3)-(4).  Stated from the
claim, to be compared with the code. -/
def specStaticClaim (registry : List String) (task : String) : Option String :=
  match TASK_SIGNALS.find? (fun p => kwMatch task p.2) with
  | some p =>
    match defaultGet p.1 with
    | some recommended =>
      if registry.contains recommended then some recommended
      else specConsensusChain registry
    | none => specConsensusChain registry
  | none => specConsensusChain registry

/-- The claimed precedence read literally: learned choice first (when
registered), else `specStaticClaim`. -/
def specSelectClaim (registry : List String) (history : List RoutingRecord)
    (task : String) : Option String :=
  match best_strategy_for history task with
  | some learned =>
    if registry.contains learned then some learned
    else specStaticClaim registry task
  | none => specStaticClaim registry task

/-- C6 counterexample: task "optimize auth" matches both the security and
the performance categories; with registry {consensus, evolutionary} and no
history, the code skips the unregistered security default "adversarial" and
keeps scanning, returning "evolutionary", while the claimed precedence
stops at the FIRST matching category and falls through to "consensus". -/
theorem C6_counterexample :
    select_strategy ["consensus", "evolutionary"] [] "optimize auth"
      = some "evolutionary" ∧
    specSelectClaim ["consensus", "evolutionary"] [] "optimize auth"
      = some "consensus" := by
  constructor
  · decide
  · decide

/-- The static fallback as the amended claim words it: the default of the
first matching signal category WHOSE default strategy is registered (and
non-empty), else "consensus" when registered, else the first registered
strategy. -/
def specFallbackAmended (registry : List String) (task : String) :
    Option String :=
  match (TASK_SIGNALS.find? (fun p => kwMatch task p.2 &&
      (match defaultGet p.1 with
       | some r => (r != "") && registry.contains r
       | none => false))).bind (fun p => defaultGet p.1) with
  | some r => some r
  | none => specConsensusChain registry

/-- The keyword-scan loop returns the default of the first category that
both matches the task and has a registered, non-empty default. -/
theorem staticScan_eq (registry : List String) (task : String) :
    ∀ l : List (String × List String),
      staticScan registry task l
        = (l.find? (fun p => kwMatch task p.2 &&
            (match defaultGet p.1 with
             | some r => (r != "") && registry.contains r
             | none => false))).bind (fun p => defaultGet p.1) := by
  intro l
  induction l with
  | nil => rfl
  | cons hd tl ih =>
    obtain ⟨signal, keywords⟩ := hd
    rw [staticScan]
    by_cases hkw : kwMatch task keywords
    · rw [if_pos hkw]
      cases hdef : defaultGet signal with
      | none =>
        rw [List.find?_cons_of_neg _ (by simp [hkw, hdef])]
        exact ih
      | some r =>
        dsimp only
        by_cases hok : r ≠ "" ∧ registry.contains r = true
        · rw [if_pos hok]
          rw [List.find?_cons_of_pos _ ?_]
          · simp [hdef]
          · simp [hkw, hdef, hok.1]
            exact List.elem_iff.mp hok.2
        · rw [if_neg hok]
          have hpredf : (kwMatch task keywords &&
              (match defaultGet signal with
               | some r' => (r' != "") && registry.contains r'
               | none => false)) = false := by
            rw [hdef]
            dsimp only
            rcases Bool.eq_false_or_eq_true (registry.contains r) with h2 | h2
            · have hr : r = "" := by
                by_contra hr
                exact hok ⟨hr, h2⟩
              rw [hr]
              simp
            · rw [h2]
              simp
          rw [List.find?_cons_of_neg _ (by simp only [hpredf]; simp)]
          exact ih
    · rw [if_neg hkw]
      rw [List.find?_cons_of_neg _ (by simp [hkw])]
      exact ih

/-- The fallback chain of the code equals the amended static description. -/
theorem selectFallback_eq (registry : List String) (task : String) :
    selectFallback registry task = specFallbackAmended registry task := by
  unfold selectFallback specFallbackAmended
  rw [staticScan_eq]
  cases ((TASK_SIGNALS.find? (fun p => kwMatch task p.2 &&
      (match defaultGet p.1 with
       | some r => (r != "") && registry.contains r
       | none => false))).bind (fun p => defaultGet p.1)) with
  | none => rfl
  | some s => rfl

/-- C6 (amended: in the static fallback the categories are scanned until one
both matches and has a REGISTERED default, which the counterexample forces;
the learned choice applies when its name is non-empty and registered): the
precedence is (1) the learned-history best strategy, else (2) the default
of the first matching category with a registered default, else (3)
"consensus" if registered, else (4) the first registered strategy; and in
the claimed scenario a recorded high-scoring "consensus" outcome for signal
"security" overrides the static default "adversarial". -/
theorem C6_router_precedence :
    (∀ (registry : List String) (history : List RoutingRecord)
        (task learned : String),
      best_strategy_for history task = some learned → learned ≠ "" →
      registry.contains learned = true →
      select_strategy registry history task = some learned) ∧
    (∀ (registry : List String) (history : List RoutingRecord) (task : String),
      (∀ l, best_strategy_for history task = some l →
        l = "" ∨ registry.contains l = false) →
      select_strategy registry history task = specFallbackAmended registry task) ∧
    select_strategy ["adversarial", "consensus"]
      [{ task_signals := ["security"], strategy := "consensus", score := 95 }]
      "fix security bug" = some "consensus" := by
  refine ⟨?_, ?_, by decide⟩
  · intro registry history task learned hb hne hreg
    unfold select_strategy
    rw [hb]
    dsimp only
    rw [if_pos ⟨hne, hreg⟩]
  · intro registry history task hunusable
    unfold select_strategy
    cases hb : best_strategy_for history task with
    | none => exact selectFallback_eq registry task
    | some l =>
      dsimp only
      rcases hunusable l hb with h | h
      · rw [if_neg (fun hc => hc.1 h)]
        exact selectFallback_eq registry task
      · rw [if_neg ?_]
        · exact selectFallback_eq registry task
        · intro hc
          rw [h] at hc
          exact Bool.false_ne_true hc.2

/-- C6 witness: the learned-history clause at the concrete scenario of the
claim (history records consensus scoring 95 for the security signal). -/
theorem C6_witness :
    select_strategy ["adversarial", "consensus"]
      [{ task_signals := ["security"], strategy := "consensus", score := 95 }]
      "security review of login" = some "consensus" :=
  C6_router_precedence.1 ["adversarial", "consensus"]
    [{ task_signals := ["security"], strategy := "consensus", score := 95 }]
    "security review of login" "consensus" (by decide) (by decide) (by decide)

/-! ## Serialization round-trips (claim C9)

`crowe_codex/cloud/routing_sync.py`, `cloud/marketplace.py`,
`cloud/dashboard.py`, `security/threat_model.py`.  A Python dict is an
insertion-ordered association list over a value type covering the payloads
these dataclasses serialize.  The dataclasses perform no type validation;
the embedding models well-typed payloads, decoding a present-but-mistyped
value as a failure. -/

/-- A Python value stored in a serialized report/entry dict. -/
inductive PyV where
  | str (s : String)
  | num (q : ℚ)
  | int (n : ℤ)
  | bool (b : Bool)
  | listStr (l : List String)
  | listInt (l : List ℤ)
deriving DecidableEq, Repr

abbrev PyDict := List (String × PyV)

/-- `data.get(key)` on a serialized dict. -/
def PyDict.get (d : PyDict) (k : String) : Option PyV :=
  (d.find? (fun p => p.1 = k)).map (·.2)

def PyV.asStr : PyV → Option String
  | .str s => some s
  | _ => none

def PyV.asRat : PyV → Option ℚ
  | .num q => some q
  | _ => none

def PyV.asInt : PyV → Option ℤ
  | .int n => some n
  | _ => none

def PyV.asBool : PyV → Option Bool
  | .bool b => some b
  | _ => none

def PyV.asListStr : PyV → Option (List String)
  | .listStr l => some l
  | _ => none

def PyV.asListInt : PyV → Option (List ℤ)
  | .listInt l => some l
  | _ => none

/-- A required constructor argument: absent key or mistyped value fails. -/
def getReqField {α : Type} (d : PyDict) (k : String) (dec : PyV → Option α) :
    Option α :=
  (d.get k).bind dec

/-- An optional constructor argument with a dataclass default. -/
def getOptField {α : Type} (d : PyDict) (k : String) (dec : PyV → Option α)
    (dflt : α) : Option α :=
  match d.get k with
  | some v => dec v
  | none => some dflt

/-- `RoutingEntry` (routing_sync.py lines 11-40). -/
structure RoutingEntry where
  task_hash : String
  task_signals : List String
  strategy : String
  score : ℚ
  timestamp : ℚ := 0
  user_id : String := ""
  team_id : String := ""
deriving DecidableEq, Repr

/-- `RoutingEntry.__post_init__` (routing_sync.py lines 23-25): a falsy
(zero) timestamp is replaced by the current `time.time()`. -/
def routingPostInit (now : ℚ) (e : RoutingEntry) : RoutingEntry :=
  if e.timestamp == 0 then { e with timestamp := now } else e

/-- `RoutingEntry.to_dict` (routing_sync.py lines 27-36). -/
def RoutingEntry.to_dict (e : RoutingEntry) : PyDict :=
  [("task_hash", .str e.task_hash), ("task_signals", .listStr e.task_signals),
   ("strategy", .str e.strategy), ("score", .num e.score),
   ("timestamp", .num e.timestamp), ("user_id", .str e.user_id),
   ("team_id", .str e.team_id)]

/-- `RoutingEntry.from_dict` (routing_sync.py lines 38-40): keep only known
field keys, pass them to the constructor (which runs `__post_init__` with
the current time `now`). -/
def RoutingEntry.from_dict (now : ℚ) (data : PyDict) : Option RoutingEntry := do
  let th ← getReqField data "task_hash" PyV.asStr
  let ts ← getReqField data "task_signals" PyV.asListStr
  let st ← getReqField data "strategy" PyV.asStr
  let sc ← getReqField data "score" PyV.asRat
  let tstamp ← getOptField data "timestamp" PyV.asRat 0
  let uid ← getOptField data "user_id" PyV.asStr ""
  let tid ← getOptField data "team_id" PyV.asStr ""
  pure (routingPostInit now
    { task_hash := th, task_signals := ts, strategy := st, score := sc
      timestamp := tstamp, user_id := uid, team_id := tid })

/-- `Threat` (threat_model.py lines 12-37). -/
structure Threat where
  id : String
  name : String
  category : String
  description : String
  severity : String
  mitigation : String := ""
  status : String := "identified"
deriving DecidableEq, Repr

/-- `Threat.to_dict` (threat_model.py lines 24-32). -/
def Threat.to_dict (t : Threat) : PyDict :=
  [("id", .str t.id), ("name", .str t.name), ("category", .str t.category),
   ("description", .str t.description), ("severity", .str t.severity),
   ("mitigation", .str t.mitigation), ("status", .str t.status)]

/-- `Threat.from_dict` (threat_model.py lines 35-37): `cls(**data)`, no key
filtering and no `__post_init__`; an unknown key raises, modelled by the
`all` guard. -/
def Threat.from_dict (data : PyDict) : Option Threat :=
  if data.all (fun p => p.1 ∈ ["id", "name", "category", "description",
      "severity", "mitigation", "status"]) then do
    let i ← getReqField data "id" PyV.asStr
    let n ← getReqField data "name" PyV.asStr
    let c ← getReqField data "category" PyV.asStr
    let de ← getReqField data "description" PyV.asStr
    let se ← getReqField data "severity" PyV.asStr
    let mi ← getOptField data "mitigation" PyV.asStr ""
    let st ← getOptField data "status" PyV.asStr "identified"
    pure { id := i, name := n, category := c, description := de,
           severity := se, mitigation := mi, status := st }
  else none

/-- `StrategyListing` (marketplace.py lines 13-46). -/
structure StrategyListing where
  name : String
  display_name : String
  description : String
  author : String
  version : String
  tags : List String := []
  install_source : String := ""
  downloads : ℤ := 0
  rating : ℚ := 0
  rating_count : ℤ := 0
  stages_required : List ℤ := []
deriving DecidableEq, Repr

/-- `StrategyListing.to_dict` (marketplace.py lines 29-42). -/
def StrategyListing.to_dict (l : StrategyListing) : PyDict :=
  [("name", .str l.name), ("display_name", .str l.display_name),
   ("description", .str l.description), ("author", .str l.author),
   ("version", .str l.version), ("tags", .listStr l.tags),
   ("install_source", .str l.install_source), ("downloads", .int l.downloads),
   ("rating", .num l.rating), ("rating_count", .int l.rating_count),
   ("stages_required", .listInt l.stages_required)]

/-- `StrategyListing.from_dict` (marketplace.py lines 44-46): keep only
known field keys, no `__post_init__`. -/
def StrategyListing.from_dict (data : PyDict) : Option StrategyListing := do
  let n ← getReqField data "name" PyV.asStr
  let dn ← getReqField data "display_name" PyV.asStr
  let de ← getReqField data "description" PyV.asStr
  let au ← getReqField data "author" PyV.asStr
  let ve ← getReqField data "version" PyV.asStr
  let ta ← getOptField data "tags" PyV.asListStr []
  let inst ← getOptField data "install_source" PyV.asStr ""
  let dl ← getOptField data "downloads" PyV.asInt 0
  let ra ← getOptField data "rating" PyV.asRat 0
  let rc ← getOptField data "rating_count" PyV.asInt 0
  let sr ← getOptField data "stages_required" PyV.asListInt []
  pure { name := n, display_name := dn, description := de, author := au,
         version := ve, tags := ta, install_source := inst, downloads := dl,
         rating := ra, rating_count := rc, stages_required := sr }

/-- `ProjectSnapshot` (dashboard.py lines 13-48). -/
structure ProjectSnapshot where
  project_name : String
  timestamp : String := ""
  security_score : ℤ := 0
  confidence_score : ℤ := 0
  strategy_used : String := ""
  owasp_clean : Bool := false
  supply_chain_safe : Bool := false
  compliance_pass_rate : ℚ := 0
  threats_count : ℤ := 0
  agents_used : List String := []
deriving DecidableEq, Repr

/-- `ProjectSnapshot.__post_init__` (dashboard.py lines 28-30): an empty
timestamp string is replaced by the current UTC isoformat `nowIso`. -/
def snapshotPostInit (nowIso : String) (s : ProjectSnapshot) : ProjectSnapshot :=
  if s.timestamp == "" then { s with timestamp := nowIso } else s

/-- `ProjectSnapshot.to_dict` (dashboard.py lines 32-44). -/
def ProjectSnapshot.to_dict (s : ProjectSnapshot) : PyDict :=
  [("project_name", .str s.project_name), ("timestamp", .str s.timestamp),
   ("security_score", .int s.security_score),
   ("confidence_score", .int s.confidence_score),
   ("strategy_used", .str s.strategy_used),
   ("owasp_clean", .bool s.owasp_clean),
   ("supply_chain_safe", .bool s.supply_chain_safe),
   ("compliance_pass_rate", .num s.compliance_pass_rate),
   ("threats_count", .int s.threats_count),
   ("agents_used", .listStr s.agents_used)]

/-- `ProjectSnapshot.from_dict` (dashboard.py lines 46-48): keep only known
field keys; the constructor runs `__post_init__` with `nowIso`. -/
def ProjectSnapshot.from_dict (nowIso : String) (data : PyDict) :
    Option ProjectSnapshot := do
  let pn ← getReqField data "project_name" PyV.asStr
  let ts ← getOptField data "timestamp" PyV.asStr ""
  let ss ← getOptField data "security_score" PyV.asInt 0
  let cs ← getOptField data "confidence_score" PyV.asInt 0
  let su ← getOptField data "strategy_used" PyV.asStr ""
  let oc ← getOptField data "owasp_clean" PyV.asBool false
  let sc ← getOptField data "supply_chain_safe" PyV.asBool false
  let cp ← getOptField data "compliance_pass_rate" PyV.asRat 0
  let tc ← getOptField data "threats_count" PyV.asInt 0
  let au ← getOptField data "agents_used" PyV.asListStr []
  pure (snapshotPostInit nowIso
    { project_name := pn, timestamp := ts, security_score := ss
      confidence_score := cs, strategy_used := su, owasp_clean := oc
      supply_chain_safe := sc, compliance_pass_rate := cp
      threats_count := tc, agents_used := au })

/-! ## Claim C9: to_dict / from_dict round-trips -/

/-- Concrete entry whose `timestamp` is the dataclass default 0. -/
def entryZeroTs : RoutingEntry :=
  { task_hash := "h", task_signals := ["testing"], strategy := "s", score := 90 }

/-- C9 counterexample: deserializing the serialized form of an entry with
timestamp 0 runs `__post_init__`, which replaces the timestamp with the
current time (here 1000), so the round-trip is not field-for-field equal. -/
theorem C9_counterexample :
    RoutingEntry.from_dict 1000 (RoutingEntry.to_dict entryZeroTs)
        ≠ some entryZeroTs ∧
    RoutingEntry.from_dict 1000 (RoutingEntry.to_dict entryZeroTs)
        = some { entryZeroTs with timestamp := 1000 } := by
  constructor
  · decide
  · decide

/-- C9 (amended: a `RoutingEntry` round-trips field-for-field whenever its
timestamp is non-zero — which construction guarantees, since
`__post_init__` replaces a zero timestamp with the current time; likewise a
`ProjectSnapshot` whenever its timestamp string is non-empty; `Threat` and
`StrategyListing` round-trip unconditionally.  `ComplianceCheck` has no
to-map/from-map pair in the code, so it is excluded). -/
theorem C9_roundtrip :
    (∀ (now : ℚ) (e : RoutingEntry), e.timestamp ≠ 0 →
      RoutingEntry.from_dict now (RoutingEntry.to_dict e) = some e) ∧
    (∀ t : Threat, Threat.from_dict (Threat.to_dict t) = some t) ∧
    (∀ l : StrategyListing,
      StrategyListing.from_dict (StrategyListing.to_dict l) = some l) ∧
    (∀ (nowIso : String) (s : ProjectSnapshot), s.timestamp ≠ "" →
      ProjectSnapshot.from_dict nowIso (ProjectSnapshot.to_dict s) = some s) := by
  refine ⟨?_, fun t => rfl, fun l => rfl, ?_⟩
  · intro now e h
    simp [RoutingEntry.from_dict, RoutingEntry.to_dict, getReqField, getOptField,
      PyDict.get, PyV.asStr, PyV.asRat, PyV.asListStr, routingPostInit]
    exact fun h0 => absurd h0 h
  · intro nowIso s h
    simp [ProjectSnapshot.from_dict, ProjectSnapshot.to_dict, getReqField,
      getOptField, PyDict.get, PyV.asStr, PyV.asRat, PyV.asInt, PyV.asBool,
      PyV.asListStr, snapshotPostInit]
    exact fun h0 => absurd h0 h

/-- C9 witness: the round-trip theorem applied at a concrete entry with a
non-zero timestamp and a concrete snapshot with a non-empty timestamp. -/
theorem C9_witness :
    RoutingEntry.from_dict 1000 (RoutingEntry.to_dict
      { task_hash := "h", task_signals := ["testing"], strategy := "s",
        score := 90, timestamp := 5, user_id := "u", team_id := "t" })
      = some { task_hash := "h", task_signals := ["testing"], strategy := "s",
               score := 90, timestamp := 5, user_id := "u", team_id := "t" } ∧
    ProjectSnapshot.from_dict "2026-01-01T00:00:00+00:00"
      (ProjectSnapshot.to_dict { project_name := "p", timestamp := "2025" })
      = some { project_name := "p", timestamp := "2025" } :=
  ⟨C9_roundtrip.1 1000
    { task_hash := "h", task_signals := ["testing"], strategy := "s",
      score := 90, timestamp := 5, user_id := "u", team_id := "t" }
    (by norm_num),
   C9_roundtrip.2.2.2 "2026-01-01T00:00:00+00:00"
    { project_name := "p", timestamp := "2025" } (by decide)⟩

/-! ## `crowe_codex/fitness/quality.py` : best-effort score parsing

`AgentFitnessEvaluator._parse_scores` slices the response from the first
opening brace to the last closing brace and feeds the slice to
`json.loads`.  The Python JSON decoder is modelled below as a strict
recursive-descent parser over the character list (whitespace, objects,
arrays, strings with escapes, numbers, literals); fuel bounds the nesting,
with enough supplied that it never runs out on a consumable input.
Non-finite number literals (NaN, Infinity) fall outside the rational value
model and are not represented. -/

/-- The opening brace character. -/
def lbrace : Char := Char.ofNat 123

/-- The closing brace character. -/
def rbrace : Char := Char.ofNat 125

/-- JSON whitespace (space, tab, newline, carriage return). -/
def isJsonWs (c : Char) : Bool :=
  c = ' ' || c = Char.ofNat 9 || c = Char.ofNat 10 || c = Char.ofNat 13

def skipWs : List Char → List Char
  | [] => []
  | c :: rest => if isJsonWs c then skipWs rest else c :: rest

/-- Decimal value of a digit run. -/
def natOfDigits (ds : List Char) : Nat :=
  ds.foldl (fun n c => n * 10 + (c.toNat - 48)) 0

/-- Hexadecimal digit value. -/
def hexVal (c : Char) : Option Nat :=
  if c.isDigit then some (c.toNat - 48)
  else if 97 ≤ c.toNat ∧ c.toNat ≤ 102 then some (c.toNat - 87)
  else if 65 ≤ c.toNat ∧ c.toNat ≤ 70 then some (c.toNat - 55)
  else none

/-- JSON string escape characters after a backslash. -/
def escChar (c : Char) : Option Char :=
  if c = '"' then some '"'
  else if c = '\\' then some '\\'
  else if c = '/' then some '/'
  else if c = 'b' then some (Char.ofNat 8)
  else if c = 'f' then some (Char.ofNat 12)
  else if c = 'n' then some (Char.ofNat 10)
  else if c = 'r' then some (Char.ofNat 13)
  else if c = 't' then some (Char.ofNat 9)
  else none

/-- JSON string body after the opening quote: plain characters, escapes and
\u escapes, ending at the closing quote; raw control characters are
rejected (the strict decoding mode). -/
def parseJString : List Char → Option (String × List Char)
  | [] => none
  | c :: rest =>
    if c = '"' then some ("", rest)
    else if c = '\\' then
      match rest with
      | [] => none
      | e :: rest2 =>
        if e = 'u' then
          match rest2 with
          | h1 :: h2 :: h3 :: h4 :: rest3 =>
            match hexVal h1, hexVal h2, hexVal h3, hexVal h4 with
            | some v1, some v2, some v3, some v4 =>
              (parseJString rest3).map (fun p =>
                (⟨Char.ofNat (((v1 * 16 + v2) * 16 + v3) * 16 + v4) :: p.1.data⟩,
                 p.2))
            | _, _, _, _ => none
          | _ => none
        else
          match escChar e with
          | some ec => (parseJString rest2).map (fun p => (⟨ec :: p.1.data⟩, p.2))
          | none => none
    else if c.toNat < 32 then none
    else (parseJString rest).map (fun p => (⟨c :: p.1.data⟩, p.2))
termination_by cs => cs.length
decreasing_by all_goals (simp; try omega)

/-- Optional leading minus sign of a JSON number. -/
def parseSign : List Char → Bool × List Char
  | [] => (false, [])
  | c :: rest => if c = '-' then (true, rest) else (false, c :: rest)

/-- Integer part: `0` or a non-zero digit followed by digits. -/
def parseIntPart : List Char → Option (Nat × List Char)
  | [] => none
  | c :: rest =>
    if c = '0' then some (0, rest)
    else if c.isDigit then
      some (natOfDigits ((c :: rest).takeWhile Char.isDigit),
        (c :: rest).dropWhile Char.isDigit)
    else none

/-- Fraction part: nothing, or a dot followed by at least one digit. -/
def parseFracPart : List Char → Option (ℚ × List Char)
  | [] => some (0, [])
  | c :: rest =>
    if c = '.' then
      match rest.takeWhile Char.isDigit with
      | [] => none
      | ds => some ((natOfDigits ds : ℚ) / (10 : ℚ) ^ ds.length,
          rest.dropWhile Char.isDigit)
    else some (0, c :: rest)

/-- Exponent part: nothing, or e/E with an optional sign and digits. -/
def parseExpPart : List Char → Option (ℤ × List Char)
  | [] => some (0, [])
  | c :: rest =>
    if c = 'e' ∨ c = 'E' then
      match rest with
      | [] => none
      | s :: rest2 =>
        if s = '+' ∨ s = '-' then
          match rest2.takeWhile Char.isDigit with
          | [] => none
          | ds => some ((if s = '-' then -(natOfDigits ds : ℤ)
              else (natOfDigits ds : ℤ)), rest2.dropWhile Char.isDigit)
        else
          match (s :: rest2).takeWhile Char.isDigit with
          | [] => none
          | ds => some ((natOfDigits ds : ℤ), (s :: rest2).dropWhile Char.isDigit)
    else some (0, c :: rest)

/-- A JSON number in the strict grammar `-?(0|[1-9][0-9]*)(.[0-9]+)?([eE][+-]?[0-9]+)?`. -/
def parseNumber (cs : List Char) : Option (ℚ × List Char) :=
  match parseSign cs with
  | (neg, cs1) =>
    match parseIntPart cs1 with
    | none => none
    | some (ip, cs2) =>
      match parseFracPart cs2 with
      | none => none
      | some (fq, cs3) =>
        match parseExpPart cs3 with
        | none => none
        | some (e, cs4) =>
          some ((if neg then (-1 : ℚ) else 1) * ((ip : ℚ) + fq) * (10 : ℚ) ^ e, cs4)

/-- Literal tails `rue`, `alse`, `ull`. -/
def expectLit (lit : String) (cs : List Char) : Option (List Char) :=
  if lit.data.isPrefixOf cs then some (cs.drop lit.data.length) else none

/-- A parsed JSON value. -/
inductive Json where
  | obj (kvs : List (String × Json))
  | arr (items : List Json)
  | str (s : String)
  | num (q : ℚ)
  | bool (b : Bool)
  | null

mutual

/-- One JSON value, dispatching on the first non-whitespace character. -/
def parseValue (fuel : Nat) (cs : List Char) : Option (Json × List Char) :=
  if h : fuel = 0 then none
  else
    match skipWs cs with
    | [] => none
    | c :: rest =>
      if c = lbrace then
        (parseObj (fuel - 1) rest).map (fun p => (Json.obj p.1, p.2))
      else if c = '[' then
        (parseArr (fuel - 1) rest).map (fun p => (Json.arr p.1, p.2))
      else if c = '"' then (parseJString rest).map (fun p => (Json.str p.1, p.2))
      else if c = 't' then (expectLit "rue" rest).map (fun r => (Json.bool true, r))
      else if c = 'f' then (expectLit "alse" rest).map (fun r => (Json.bool false, r))
      else if c = 'n' then (expectLit "ull" rest).map (fun r => (Json.null, r))
      else (parseNumber (c :: rest)).map (fun p => (Json.num p.1, p.2))
termination_by fuel
decreasing_by all_goals omega

/-- Object body after the opening brace. -/
def parseObj (fuel : Nat) (cs : List Char) :
    Option (List (String × Json) × List Char) :=
  if h : fuel = 0 then none
  else
    match skipWs cs with
    | [] => none
    | c :: rest =>
      if c = rbrace then some ([], rest)
      else parseMembers (fuel - 1) (c :: rest)
termination_by fuel
decreasing_by all_goals omega

/-- One or more `"key": value` members separated by commas, ending at the
closing brace. -/
def parseMembers (fuel : Nat) (cs : List Char) :
    Option (List (String × Json) × List Char) :=
  if h : fuel = 0 then none
  else
    match skipWs cs with
    | [] => none
    | c :: rest =>
      if c = '"' then
        match parseJString rest with
        | none => none
        | some (k, rest1) =>
          match skipWs rest1 with
          | ':' :: rest2 =>
            match parseValue (fuel - 1) rest2 with
            | none => none
            | some (v, rest3) =>
              match skipWs rest3 with
              | [] => none
              | c2 :: rest4 =>
                if c2 = ',' then
                  match parseMembers (fuel - 1) rest4 with
                  | none => none
                  | some (kvs, rest5) => some ((k, v) :: kvs, rest5)
                else if c2 = rbrace then some ([(k, v)], rest4)
                else none
          | _ => none
      else none
termination_by fuel
decreasing_by all_goals omega

/-- Array body after the opening bracket. -/
def parseArr (fuel : Nat) (cs : List Char) : Option (List Json × List Char) :=
  if h : fuel = 0 then none
  else
    match skipWs cs with
    | [] => none
    | c :: rest =>
      if c = ']' then some ([], rest)
      else parseItems (fuel - 1) (c :: rest)
termination_by fuel
decreasing_by all_goals omega

/-- One or more array items separated by commas, ending at the closing
bracket. -/
def parseItems (fuel : Nat) (cs : List Char) : Option (List Json × List Char) :=
  if h : fuel = 0 then none
  else
    match parseValue (fuel - 1) cs with
    | none => none
    | some (v, rest) =>
      match skipWs rest with
      | [] => none
      | c :: rest2 =>
        if c = ',' then
          match parseItems (fuel - 1) rest2 with
          | none => none
          | some (vs, rest3) => some (v :: vs, rest3)
        else if c = ']' then some ([v], rest2)
        else none
termination_by fuel
decreasing_by all_goals omega

end

/-- `json.loads` on a character list: one value, with only whitespace
allowed after it ("Extra data" otherwise); `none` models
`json.JSONDecodeError`.  The fuel bounds recursion depth; four units per
input character always suffice. -/
def json_loads (cs : List Char) : Option Json :=
  match parseValue (4 * (cs.length + 1)) cs with
  | some (v, rest) => if skipWs rest = [] then some v else none
  | none => none

/-- Exponent suffix accepted by Python `float(str)`; must consume the whole
remainder. -/
def parseExpPy : List Char → Option ℤ
  | [] => some 0
  | c :: rest =>
    if c = 'e' ∨ c = 'E' then
      match rest with
      | [] => none
      | s :: r2 =>
        if s = '+' ∨ s = '-' then
          match r2.takeWhile Char.isDigit with
          | [] => none
          | ds =>
            if r2.dropWhile Char.isDigit = [] then
              some (if s = '-' then -(natOfDigits ds : ℤ) else (natOfDigits ds : ℤ))
            else none
        else
          match (s :: r2).takeWhile Char.isDigit with
          | [] => none
          | ds =>
            if (s :: r2).dropWhile Char.isDigit = [] then
              some (natOfDigits ds : ℤ)
            else none
    else none

/-- Unsigned decimal body accepted by Python `float(str)`:
`digits [. digits]`, `digits .`, or `. digits`, with an optional exponent. -/
def pyFloatBody (cs : List Char) : Option ℚ :=
  let ip := cs.takeWhile Char.isDigit
  let r1 := cs.dropWhile Char.isDigit
  match r1 with
  | '.' :: r2 =>
    let fd := r2.takeWhile Char.isDigit
    let r3 := r2.dropWhile Char.isDigit
    if ip = [] ∧ fd = [] then none
    else
      (parseExpPy r3).map (fun e =>
        ((natOfDigits ip : ℚ) + (natOfDigits fd : ℚ) / (10 : ℚ) ^ fd.length)
          * (10 : ℚ) ^ e)
  | _ =>
    if ip = [] then none
    else (parseExpPy r1).map (fun e => (natOfDigits ip : ℚ) * (10 : ℚ) ^ e)

/-- Python `float(str)`: strip surrounding whitespace, optional sign, then
a decimal body (non-finite literals are outside the rational model). -/
def pyFloatOfString (s : String) : Option ℚ :=
  let cs := s.data.dropWhile Char.isWhitespace
  let cs := (cs.reverse.dropWhile Char.isWhitespace).reverse
  match cs with
  | '+' :: r => pyFloatBody r
  | '-' :: r => (pyFloatBody r).map Neg.neg
  | _ => pyFloatBody cs

/-- Python `float(value)` on a decoded JSON value: numbers and bools
convert, numeric strings parse, anything else raises TypeError (which the
except clause catches). -/
def pyFloatOfJson : Json → Option ℚ
  | .num q => some q
  | .bool b => some (if b then 1 else 0)
  | .str s => pyFloatOfString s
  | _ => none

/-- `float(data.get(key, 0))`: a JSON object decodes to a dict in which a
duplicated key keeps its last occurrence; a missing key defaults to 0. -/
def jsonObjGetFloat (kvs : List (String × Json)) (k : String) : Option ℚ :=
  match (kvs.reverse.find? (fun p => p.1 = k)).map (·.2) with
  | some v => pyFloatOfJson v
  | none => some 0

/-- The `FitnessScore(correctness=float(...), ...)` construction
(quality.py lines 40-46); `none` when any of the five conversions raises. -/
def scoresFromObj (kvs : List (String × Json)) : Option FitnessScore := do
  let c ← jsonObjGetFloat kvs "correctness"
  let p ← jsonObjGetFloat kvs "performance"
  let r ← jsonObjGetFloat kvs "readability"
  let b ← jsonObjGetFloat kvs "robustness"
  let s ← jsonObjGetFloat kvs "security"
  pure { correctness := c, performance := p, readability := r,
         robustness := b, security := s }

/-- The suffix of the response starting at the first opening brace
(`response.find` at quality.py line 36). -/
def sliceFromFirstLbrace : List Char → Option (List Char)
  | [] => none
  | c :: rest =>
    if c = lbrace then some (c :: rest) else sliceFromFirstLbrace rest

/-- Truncation at the last closing brace inclusive (`response.rfind` at
quality.py line 37). -/
def truncAtLastRbrace (l : List Char) : Option (List Char) :=
  match l.reverse.dropWhile (fun c => c ≠ rbrace) with
  | [] => none
  | rl => some rl.reverse

/-- `response[start:end]` with `start = find("\x7b")`, `end = rfind("\x7d") + 1`,
guarded by `start >= 0 and end > start` (quality.py lines 36-38). -/
def extractSlice (response : String) : Option (List Char) :=
  (sliceFromFirstLbrace response.data).bind truncAtLastRbrace

/-- `AgentFitnessEvaluator._parse_scores` (quality.py lines 31-49): slice
from the first opening to the last closing brace, decode as JSON, read the
five sub-scores; `json.JSONDecodeError`, `ValueError` and `TypeError` are
caught and yield the all-zero score, while `.error` marks an exception the
except clause would NOT catch. -/
def parse_scores (response : String) : Except String FitnessScore :=
  match extractSlice response with
  | none => .ok FitnessScore.zero
  | some slice =>
    match json_loads slice with
    | none => .ok FitnessScore.zero
    | some (.obj kvs) =>
      match scoresFromObj kvs with
      | some fs => .ok fs
      | none => .ok FitnessScore.zero
    | some _ => .error "AttributeError"

/-- The first balanced brace block, as claim C8 words the extraction: from
the first opening brace to its matching closing brace, counting depth.
Stated from the claim, to be compared with the code. -/
def balancedFrom : Nat → List Char → Option (List Char)
  | _, [] => none
  | depth, c :: rest =>
    if c = lbrace then (balancedFrom (depth + 1) rest).map (c :: ·)
    else if c = rbrace then
      if depth = 1 then some [c]
      else (balancedFrom (depth - 1) rest).map (c :: ·)
    else (balancedFrom depth rest).map (c :: ·)

/-- The first balanced `\x7b...\x7d` block of the response. -/
def firstBalancedBlock (response : String) : Option (List Char) :=
  match sliceFromFirstLbrace response.data with
  | some (c :: rest) => (balancedFrom 1 rest).map (fun l => c :: l)
  | _ => none

/-- Score parsing as the claim words it: parse the FIRST BALANCED block
(any failure gives the all-zero score). -/
def specClaimParse (response : String) : FitnessScore :=
  match firstBalancedBlock response with
  | none => FitnessScore.zero
  | some block =>
    match json_loads block with
    | some (.obj kvs) => (scoresFromObj kvs).getD FitnessScore.zero
    | _ => FitnessScore.zero

/-! ## Claim C8: best-effort score parsing -/

/-- A response holding two JSON blocks with text in between: the first
balanced block is valid JSON, but the first-to-last-brace slice is not. -/
def responseTwoBlocks : String :=
  "\x7b\"correctness\": 50\x7d x \x7b\"x\": 1\x7d"

/-- C8 counterexample: on a response with two JSON blocks the code slices
from the FIRST opening brace to the LAST closing brace, which fails to
parse and yields the all-zero score, while the claimed
first-balanced-block extraction parses correctness = 50. -/
theorem C8_counterexample :
    parse_scores responseTwoBlocks = .ok FitnessScore.zero ∧
    specClaimParse responseTwoBlocks = { correctness := 50 } ∧
    ({ correctness := 50 } : FitnessScore) ≠ FitnessScore.zero := by
  refine ⟨?_, ?_, by decide⟩
  · simp [parse_scores, extractSlice, sliceFromFirstLbrace, truncAtLastRbrace,
      json_loads, parseValue, parseObj, parseMembers, parseJString, parseNumber,
      parseIntPart, parseFracPart, parseExpPart, parseSign, skipWs, isJsonWs,
      expectLit, lbrace, rbrace, escChar, hexVal, natOfDigits, responseTwoBlocks]
  · simp [specClaimParse, firstBalancedBlock, sliceFromFirstLbrace, balancedFrom,
      json_loads, parseValue, parseObj, parseMembers, parseJString, parseNumber,
      parseIntPart, parseFracPart, parseExpPart, parseSign, skipWs, isJsonWs,
      expectLit, lbrace, rbrace, escChar, hexVal, natOfDigits, responseTwoBlocks,
      scoresFromObj, jsonObjGetFloat, pyFloatOfJson, FitnessScore.zero]

theorem sliceFromFirstLbrace_head :
    ∀ (cs l : List Char), sliceFromFirstLbrace cs = some l →
      ∃ r, l = lbrace :: r := by
  intro cs
  induction cs with
  | nil =>
    intro l h
    simp [sliceFromFirstLbrace] at h
  | cons c rest ih =>
    intro l h
    rw [sliceFromFirstLbrace] at h
    by_cases hc : c = lbrace
    · rw [if_pos hc] at h
      cases h
      exact ⟨rest, by rw [hc]⟩
    · rw [if_neg hc] at h
      exact ih l h

theorem truncAtLastRbrace_head (r t : List Char)
    (h : truncAtLastRbrace (lbrace :: r) = some t) : ∃ r', t = lbrace :: r' := by
  unfold truncAtLastRbrace at h
  cases hd : (lbrace :: r).reverse.dropWhile (fun c => c ≠ rbrace) with
  | nil =>
    rw [hd] at h
    cases h
  | cons a tl =>
    rw [hd] at h
    have ht : t = (a :: tl).reverse := by
      cases h
      rfl
    have hsuf : (a :: tl) <:+ (lbrace :: r).reverse := by
      rw [← hd]
      exact List.dropWhile_suffix _
    have hpre : (a :: tl).reverse <+: (lbrace :: r) := by
      have h2 := List.reverse_prefix.mpr hsuf
      rwa [List.reverse_reverse] at h2
    obtain ⟨u, hu⟩ := hpre
    cases hrev : (a :: tl).reverse with
    | nil =>
      have := congrArg List.length hrev
      simp at this
    | cons b bs =>
      rw [hrev] at hu
      rw [List.cons_append] at hu
      have hb : b = lbrace := (List.cons.injEq _ _ _ _).mp hu |>.1
      exact ⟨bs, by rw [ht, hrev, hb]⟩

theorem parseValue_obj (fuel : Nat) (r : List Char) (v : Json)
    (rest : List Char) (hf : fuel ≠ 0)
    (h : parseValue fuel (lbrace :: r) = some (v, rest)) :
    ∃ kvs, v = .obj kvs := by
  rw [parseValue] at h
  rw [dif_neg hf] at h
  have hws : skipWs (lbrace :: r) = lbrace :: r := by
    rw [skipWs]
    rw [if_neg (by decide)]
  rw [hws] at h
  dsimp only at h
  rw [if_pos rfl] at h
  cases hp : parseObj (fuel - 1) r with
  | none =>
    rw [hp] at h
    cases h
  | some p =>
    rw [hp] at h
    cases h
    exact ⟨p.1, rfl⟩

theorem json_loads_lbrace (r : List Char) :
    json_loads (lbrace :: r) = none ∨
    ∃ kvs, json_loads (lbrace :: r) = some (.obj kvs) := by
  unfold json_loads
  cases hpv : parseValue (4 * ((lbrace :: r).length + 1)) (lbrace :: r) with
  | none => exact Or.inl rfl
  | some p =>
    obtain ⟨v, rest2⟩ := p
    obtain ⟨kvs, hk⟩ := parseValue_obj _ r v rest2 (by omega) hpv
    dsimp only
    by_cases hws : skipWs rest2 = []
    · refine Or.inr ⟨kvs, ?_⟩
      rw [if_pos hws, hk]
    · refine Or.inl ?_
      rw [if_neg hws]

/-- C8 (amended: the code extracts the substring from the FIRST opening
brace to the LAST closing brace — not the first balanced block, which the
two-block counterexample forces — parses it as JSON and reads the five 0-100
sub-scores; every parse failure, missing block, invalid JSON or non-numeric
value yields the all-zero FitnessScore, and no error escapes the except
clause). -/
theorem C8_parse_scores :
    (∀ response : String, ∃ fs : FitnessScore, parse_scores response = .ok fs) ∧
    (∀ (response : String) (slice : List Char) (kvs : List (String × Json))
        (fs : FitnessScore),
      extractSlice response = some slice →
      json_loads slice = some (.obj kvs) →
      scoresFromObj kvs = some fs →
      parse_scores response = .ok fs) ∧
    (∀ response : String,
      (extractSlice response = none ∨
       (∃ slice, extractSlice response = some slice ∧ json_loads slice = none) ∨
       (∃ slice kvs, extractSlice response = some slice ∧
         json_loads slice = some (.obj kvs) ∧ scoresFromObj kvs = none)) →
      parse_scores response = .ok FitnessScore.zero) := by
  refine ⟨?_, ?_, ?_⟩
  · intro response
    unfold parse_scores
    cases hs : extractSlice response with
    | none => exact ⟨FitnessScore.zero, rfl⟩
    | some slice =>
      obtain ⟨l, hsl, htr⟩ : ∃ l, sliceFromFirstLbrace response.data = some l ∧
          truncAtLastRbrace l = some slice := by
        unfold extractSlice at hs
        cases hsl : sliceFromFirstLbrace response.data with
        | none =>
          rw [hsl] at hs
          cases hs
        | some l =>
          rw [hsl] at hs
          exact ⟨l, rfl, hs⟩
      obtain ⟨r0, rfl⟩ := sliceFromFirstLbrace_head _ _ hsl
      obtain ⟨r1, rfl⟩ := truncAtLastRbrace_head _ _ htr
      dsimp only
      rcases json_loads_lbrace r1 with h | ⟨kvs, h⟩
      · rw [h]
        exact ⟨FitnessScore.zero, rfl⟩
      · rw [h]
        dsimp only
        cases hsc : scoresFromObj kvs with
        | none => exact ⟨FitnessScore.zero, rfl⟩
        | some fs => exact ⟨fs, rfl⟩
  · intro response slice kvs fs hs hj hsc
    unfold parse_scores
    rw [hs]
    dsimp only
    rw [hj]
    dsimp only
    rw [hsc]
  · intro response h
    unfold parse_scores
    rcases h with h | ⟨slice, hs, hj⟩ | ⟨slice, kvs, hs, hj, hsc⟩
    · rw [h]
    · rw [hs]
      dsimp only
      rw [hj]
    · rw [hs]
      dsimp only
      rw [hj]
      dsimp only
      rw [hsc]

/-- C8 witness: the success clause at a clean single-block response. -/
theorem C8_witness :
    extractSlice "\x7b\"correctness\": 50\x7d" = some "\x7b\"correctness\": 50\x7d".data ∧
    parse_scores "\x7b\"correctness\": 50\x7d" = .ok { correctness := 50 } := by
  constructor
  · simp [extractSlice, sliceFromFirstLbrace, truncAtLastRbrace, lbrace, rbrace]
  · refine C8_parse_scores.2.1 "\x7b\"correctness\": 50\x7d"
      "\x7b\"correctness\": 50\x7d".data [("correctness", Json.num 50)]
      { correctness := 50 } ?_ ?_ ?_
    · simp [extractSlice, sliceFromFirstLbrace, truncAtLastRbrace, lbrace, rbrace]
    · simp [json_loads, parseValue, parseObj, parseMembers, parseJString,
        parseNumber, parseIntPart, parseFracPart, parseExpPart, parseSign,
        skipWs, isJsonWs, expectLit, lbrace, rbrace, escChar, hexVal,
        natOfDigits]
    · simp [scoresFromObj, jsonObjGetFloat, pyFloatOfJson]
